import Mathlib

/-!
# Load-balancer frontend-rule actions and managed-database user identifiers

A shallow embedding of

* `internal/service/loadbalancer/frontend_rule_actions.go`
  (`loadBalancerActionsFromResourceData`, `setFrontendRuleActionsResourceData`,
  `getString`, `validateHTTPRedirectChange`, `validateActionsNotEmpty`), and
* `internal/service/database/user.go`: the sub-resource identifier handling (the
  `StateContext` function of `ResourceUser`, the identifier stored by
  `resourceUserCreate` and decoded by `resourceUserRead`), the `ConflictsWith`
  declarations of `schemaUser`, and the handlers `resourceUserCreate`,
  `resourceUserRead`, `resourceUserUpdate`, `resourceUserDelete` with their helpers,
* `internal/utils/diagnostic.go`, and
* the `family` validator of `internal/service/network/network.go` and the `scheme`
  validator of `frontendRuleActionsSchema`.

## Data model

The Terraform resource data `d` is a typed record that follows
`frontendRuleActionsSchema`: an `actions` list of blocks, each block holding one
list per action kind.  The schema fixes the Go type of every field, so the
unchecked type assertions of the source (`v["backend_name"].(string)`, ...) are
field projections here.  The two places where the source uses a *checked*
assertion are kept dynamic:

* an element of `actions.0.http_redirect` may be `nil` (an empty block, see the
  comment in `validateHTTPRedirectChange`): the list holds `Option` blocks;
* `getString` works on a `map[string]interface{}`: blocks are viewed as maps
  from keys to dynamically typed values (`Raw`).

Go `error` results are `Option Error` (`none` is `nil`), `(value, error)`
results are `Except Error value`.

A handler of the user resource runs against a `Meta`: the API client, whose every
answer is a function of the calls made so far and of the request, and the helpers
of the repository that are taken as parameters.  A handler returns the resource
data after the call, the list of calls extended by the calls it made, in order,
and its diagnostics.
-/

set_option autoImplicit false

/-! ## API objects (`upcloud.LoadBalancerAction` and the `request.New...Action` constructors) -/

/-- Payload `upcloud.LoadBalancerActionUseBackend`. -/
structure LoadBalancerActionUseBackend where
  Backend : String
  deriving DecidableEq, Repr

/-- Payload `upcloud.LoadBalancerActionHTTPRedirect`. -/
structure LoadBalancerActionHTTPRedirect where
  Location : String
  Scheme : String
  deriving DecidableEq, Repr

/-- Payload `upcloud.LoadBalancerActionHTTPReturn`. -/
structure LoadBalancerActionHTTPReturn where
  Status : Int
  ContentType : String
  Payload : String
  deriving DecidableEq, Repr

/-- The API action `upcloud.LoadBalancerAction`: a type tag (field `Type`) and one optional
(pointer) payload per kind; `TCPReject` and `SetForwardedHeaders` point to empty
structs. -/
structure LoadBalancerAction where
  Type_ : String
  UseBackend : Option LoadBalancerActionUseBackend
  TCPReject : Option Unit
  HTTPReturn : Option LoadBalancerActionHTTPReturn
  HTTPRedirect : Option LoadBalancerActionHTTPRedirect
  SetForwardedHeaders : Option Unit
  deriving DecidableEq, Repr

def LoadBalancerActionTypeUseBackend : String := "use_backend"
def LoadBalancerActionTypeTCPReject : String := "tcp_reject"
def LoadBalancerActionTypeHTTPReturn : String := "http_return"
def LoadBalancerActionTypeHTTPRedirect : String := "http_redirect"
def LoadBalancerActionTypeSetForwardedHeaders : String := "set_forwarded_headers"

/-- The action with the given type tag and no payload. -/
def LoadBalancerAction.empty (t : String) : LoadBalancerAction :=
  { Type_ := t, UseBackend := none, TCPReject := none, HTTPReturn := none,
    HTTPRedirect := none, SetForwardedHeaders := none }

/-- Constructor `request.NewLoadBalancerUseBackendAction(name)`. -/
def NewLoadBalancerUseBackendAction (name : String) : LoadBalancerAction :=
  { LoadBalancerAction.empty LoadBalancerActionTypeUseBackend with
    UseBackend := some { Backend := name } }

/-- Constructor `request.NewLoadBalancerTCPRejectAction()`. -/
def NewLoadBalancerTCPRejectAction : LoadBalancerAction :=
  { LoadBalancerAction.empty LoadBalancerActionTypeTCPReject with TCPReject := some () }

/-- Constructor `request.NewLoadBalancerHTTPReturnAction(status, contentType, payload)`. -/
def NewLoadBalancerHTTPReturnAction (status : Int) (contentType payload : String) :
    LoadBalancerAction :=
  { LoadBalancerAction.empty LoadBalancerActionTypeHTTPReturn with
    HTTPReturn := some { Status := status, ContentType := contentType, Payload := payload } }

/-- Constructor `request.NewLoadBalancerHTTPRedirectAction(location)`: the scheme
is left at its zero value. -/
def NewLoadBalancerHTTPRedirectAction (location : String) : LoadBalancerAction :=
  { LoadBalancerAction.empty LoadBalancerActionTypeHTTPRedirect with
    HTTPRedirect := some { Location := location, Scheme := "" } }

/-- Constructor `request.NewLoadBalancerHTTPRedirectSchemeAction(scheme)`: the
location is left at its zero value. -/
def NewLoadBalancerHTTPRedirectSchemeAction (scheme : String) : LoadBalancerAction :=
  { LoadBalancerAction.empty LoadBalancerActionTypeHTTPRedirect with
    HTTPRedirect := some { Location := "", Scheme := scheme } }

/-- Constructor `request.NewLoadBalancerSetForwardedHeadersAction()`. -/
def NewLoadBalancerSetForwardedHeadersAction : LoadBalancerAction :=
  { LoadBalancerAction.empty LoadBalancerActionTypeSetForwardedHeaders with
    SetForwardedHeaders := some () }

/-- The rule `upcloud.LoadBalancerFrontendRule`, reduced to the field the code reads. -/
structure LoadBalancerFrontendRule where
  Actions : List LoadBalancerAction
  deriving DecidableEq, Repr

/-! ## Errors -/

/-- An argument of a `fmt` formatting call: a string or a slice of strings. -/
inductive FmtArg where
  | str (s : String)
  | strs (l : List String)
  deriving DecidableEq, Repr

/-- A Go `error` value: a fixed message (`errors.New`, `fmt.Errorf` without
verbs), the unsupported-action error, whose message
`"received unsupported action type '%s' %+v"` is formatted from the action, or
`fmt.Errorf(format, args...)` with its format string and arguments, kept
unrendered. -/
inductive Error where
  | message (text : String)
  | unsupportedActionType (a : LoadBalancerAction)
  | errorf (format : String) (args : List FmtArg)
  deriving DecidableEq, Repr

/-- Result of a function that returns an `error` and may also dereference a nil
pointer (a Go run-time panic). -/
inductive Result (α : Type) where
  | ok (value : α)
  | error (e : Error)
  | nilDereference
  deriving DecidableEq, Repr

/-! ## Resource data (`schema.ResourceData` / `schema.ResourceDiff`) -/

/-- Block `use_backend`. -/
structure UseBackendBlock where
  backend_name : String
  deriving DecidableEq, Repr

/-- Block `http_redirect`; an unset string attribute reads as `""`. -/
structure HTTPRedirectBlock where
  location : String
  scheme : String
  deriving DecidableEq, Repr

/-- Block `http_return`. -/
structure HTTPReturnBlock where
  content_type : String
  status : Int
  payload : String
  deriving DecidableEq, Repr

/-- Block `tcp_reject` or `set_forwarded_headers`: the single attribute `active`. -/
structure ActiveBlock where
  active : Bool
  deriving DecidableEq, Repr

/-- One `actions` block (`frontendRuleActionsSchema`): a list per action kind.  A
kind that is absent from the configuration is the empty list; so is a kind that is
present without elements, which `ResourceData.emptyKinds` records.  An element of
`http_redirect` is `none` when the block is empty and read as `nil`. -/
structure ActionsBlock where
  use_backend : List UseBackendBlock
  http_redirect : List (Option HTTPRedirectBlock)
  http_return : List HTTPReturnBlock
  tcp_reject : List ActiveBlock
  set_forwarded_headers : List ActiveBlock
  deriving DecidableEq, Repr

/-- The part of the resource data the code touches: the `actions` attribute.
`emptyKinds` lists the kinds of `actions.0` whose list is present in the resource
data without any element (its count exists and is 0), as opposed to the kinds
that are absent; both read as the empty list. -/
structure ResourceData where
  actions : List ActionsBlock
  emptyKinds : List String := []
  deriving DecidableEq, Repr

/-- The plan-time view `schema.ResourceDiff` reads the same attributes. -/
abbrev ResourceDiff := ResourceData

/-- The block with no action at all. -/
def ActionsBlock.empty : ActionsBlock :=
  { use_backend := [], http_redirect := [], http_return := [], tcp_reject := [],
    set_forwarded_headers := [] }

/-- Whether any field of the block exists, i.e. some kind has at least one element. -/
def ActionsBlock.hasField (b : ActionsBlock) : Bool :=
  !(b.use_backend.isEmpty && b.http_redirect.isEmpty && b.http_return.isEmpty
      && b.tcp_reject.isEmpty && b.set_forwarded_headers.isEmpty)

/-- The block addressed by `actions.0`; reading below a missing block yields zero
values, i.e. empty lists. -/
def ResourceData.actions0 (d : ResourceData) : ActionsBlock :=
  match d.actions with
  | [] => ActionsBlock.empty
  | b :: _ => b

/-- A dynamically typed scalar (`interface{}`) stored under a key of a block. -/
inductive Raw where
  | nil
  | str (s : String)
  | int (n : Int)
  | bool (b : Bool)
  deriving DecidableEq, Repr

/-- The `map[string]interface{}` view of an `http_redirect` block: both schema
keys are present and hold strings, any other key is missing (`nil`). -/
def HTTPRedirectBlock.toMap (b : HTTPRedirectBlock) (key : String) : Raw :=
  if key = "location" then Raw.str b.location
  else if key = "scheme" then Raw.str b.scheme
  else Raw.nil

/-- The keys of `frontendRuleActionsSchema`, the five action kinds. -/
def frontendRuleActionsSchema_keys : List String :=
  ["use_backend", "http_redirect", "http_return", "tcp_reject", "set_forwarded_headers"]

/-- Whether the object `actions.0` exists for the field reader: some kind of the
schema exists, with at least one element or as a list without elements. -/
def ResourceData.actions0Exists (d : ResourceData) : Bool :=
  d.actions0.hasField ||
    d.emptyKinds.any (fun kind => decide (kind ∈ frontendRuleActionsSchema_keys))

/-- `d.Get("actions.0").(map[string]interface{})`: the keys of the map, or `none`
if the value is not a map.  The field reader returns the zero value of an object,
the empty map, when no kind of the block exists, and otherwise a map with every
key of the schema (kinds that are absent or without elements as empty lists). -/
def ResourceData.getActions0Map (d : ResourceData) : Option (List String) :=
  if d.actions0Exists then some frontendRuleActionsSchema_keys
  else some []

/-- `d.GetOk("actions.0")`, second component: the value exists and is not the
zero value (the empty map). -/
def ResourceData.getOkActions0 (d : ResourceData) : Bool :=
  d.actions0Exists

/-- `d.GetOk("actions.0.http_redirect.<i>.<field>")` for a string attribute: the
value, and whether it is set to a non-zero (non-empty) string.  A `nil` block or an
index out of range has no attribute. -/
def ResourceData.getOkHTTPRedirect (d : ResourceData) (i : Nat) (field : String) :
    String × Bool :=
  match d.actions0.http_redirect[i]? with
  | some (some b) =>
    match b.toMap field with
    | Raw.str s => (s, s ≠ "")
    | _ => ("", false)
  | _ => ("", false)

/-! ## `frontend_rule_actions.go` -/

/-- The `http_redirect` loop of `loadBalancerActionsFromResourceData`, over the
indices `is` of `d.Get("actions.0.http_redirect")`, appending to `a`. -/
def httpRedirectLoop (d : ResourceData) :
    List Nat → List LoadBalancerAction → Except Error (List LoadBalancerAction)
  | [], a => Except.ok a
  | i :: is, a =>
    let (location, locationOK) := d.getOkHTTPRedirect i "location"
    let (scheme, schemeOK) := d.getOkHTTPRedirect i "scheme"
    if schemeOK && locationOK then
      Except.error
        (Error.message "http_redirect action can have either target location or target scheme not both")
    else
      let a := if locationOK then a ++ [NewLoadBalancerHTTPRedirectAction location] else a
      let a := if schemeOK then a ++ [NewLoadBalancerHTTPRedirectSchemeAction scheme] else a
      httpRedirectLoop d is a

/-- Function `loadBalancerActionsFromResourceData`. -/
def loadBalancerActionsFromResourceData (d : ResourceData) :
    Except Error (List LoadBalancerAction) :=
  let a : List LoadBalancerAction := []
  if !d.getOkActions0 then Except.ok a
  else
    let a := d.actions0.set_forwarded_headers.foldl
      (fun a _ => a ++ [NewLoadBalancerSetForwardedHeadersAction]) a
    let a := d.actions0.use_backend.foldl
      (fun a v => a ++ [NewLoadBalancerUseBackendAction v.backend_name]) a
    let a := d.actions0.http_return.foldl
      (fun a v => a ++ [NewLoadBalancerHTTPReturnAction v.status v.content_type v.payload]) a
    match httpRedirectLoop d (List.range d.actions0.http_redirect.length) a with
    | Except.error e => Except.error e
    | Except.ok a =>
      let a := d.actions0.tcp_reject.foldl
        (fun a _ => a ++ [NewLoadBalancerTCPRejectAction]) a
      Except.ok a

/-- The local `actions` map of `setFrontendRuleActionsResourceData`
(`map[string][]interface{}` keyed by `string(a.Type)`), one list per supported
key.  The five supported type tags are spelled like the five schema keys, so the
map written by `d.Set("actions", []interface{}{actions})` reads back as a block;
a key that was never appended to reads back as the empty list. -/
abbrev ActionsMap := ActionsBlock

/-- One iteration of the loop of `setFrontendRuleActionsResourceData`: build the
block `v` for action `a` and append it to `actions[t]`. -/
def setFrontendRuleActionsStep (actions : ActionsMap) (a : LoadBalancerAction) :
    Result ActionsMap :=
  if a.Type_ = LoadBalancerActionTypeUseBackend then
    match a.UseBackend with
    | none => Result.nilDereference
    | some p =>
      Result.ok { actions with use_backend := actions.use_backend ++ [{ backend_name := p.Backend }] }
  else if a.Type_ = LoadBalancerActionTypeHTTPRedirect then
    match a.HTTPRedirect with
    | none => Result.nilDereference
    | some p =>
      Result.ok { actions with
        http_redirect := actions.http_redirect ++ [some { location := p.Location, scheme := p.Scheme }] }
  else if a.Type_ = LoadBalancerActionTypeHTTPReturn then
    match a.HTTPReturn with
    | none => Result.nilDereference
    | some p =>
      Result.ok { actions with
        http_return := actions.http_return ++
          [{ content_type := p.ContentType, status := p.Status, payload := p.Payload }] }
  else if a.Type_ = LoadBalancerActionTypeTCPReject then
    Result.ok { actions with tcp_reject := actions.tcp_reject ++ [{ active := true }] }
  else if a.Type_ = LoadBalancerActionTypeSetForwardedHeaders then
    Result.ok { actions with
      set_forwarded_headers := actions.set_forwarded_headers ++ [{ active := true }] }
  else Result.error (Error.unsupportedActionType a)

/-- The loop of `setFrontendRuleActionsResourceData` over `rule.Actions`. -/
def setFrontendRuleActionsLoop : ActionsMap → List LoadBalancerAction → Result ActionsMap
  | actions, [] => Result.ok actions
  | actions, a :: rest =>
    match setFrontendRuleActionsStep actions a with
    | Result.ok actions => setFrontendRuleActionsLoop actions rest
    | Result.error e => Result.error e
    | Result.nilDereference => Result.nilDereference

/-- Function `setFrontendRuleActionsResourceData`: the resource data after the
call (`d.Set("actions", ...)` replaces the attribute), or the returned error. -/
def setFrontendRuleActionsResourceData (d : ResourceData) (rule : LoadBalancerFrontendRule) :
    Result ResourceData :=
  if rule.Actions.length = 0 then Result.ok { d with actions := [] }
  else
    match setFrontendRuleActionsLoop ActionsBlock.empty rule.Actions with
    | Result.ok actions => Result.ok { d with actions := [actions] }
    | Result.error e => Result.error e
    | Result.nilDereference => Result.nilDereference

/-- Function `setFrontendRuleActionsResourceData` with its effect on the resource
data made explicit: the resource data when the call ends, and how it ends (`nil`,
an error, or a nil-pointer dereference).  The loop fills the local map `actions`;
the resource data is written by `d.Set("actions", nil)` for a rule without
actions and by `d.Set("actions", []interface{}{actions})` after the loop, and
nowhere else. -/
def setFrontendRuleActionsResourceData_state (d : ResourceData)
    (rule : LoadBalancerFrontendRule) : ResourceData × Result Unit :=
  if rule.Actions.length = 0 then ({ d with actions := [] }, Result.ok ())
  else
    match setFrontendRuleActionsLoop ActionsBlock.empty rule.Actions with
    | Result.ok actions => ({ d with actions := [actions] }, Result.ok ())
    | Result.error e => (d, Result.error e)
    | Result.nilDereference => (d, Result.nilDereference)

/-- Function `getString`: the string under `key`, or `""` when the value is not a string. -/
def getString (m : String → Raw) (key : String) : String :=
  match m key with
  | Raw.str val => val
  | _ => ""

/-- The loop of `validateHTTPRedirectChange` over the elements of
`d.Get("actions.0.http_redirect")`. -/
def validateHTTPRedirectLoop : List (Option HTTPRedirectBlock) → Option Error
  | [] => none
  | none :: _ =>
    some (Error.message "either location or scheme should be defined for http_redirect")
  | some v :: rest =>
    let location := getString v.toMap "location"
    let scheme := getString v.toMap "scheme"
    if location ≠ "" && scheme ≠ "" then
      some (Error.message
        "only either location or scheme should be defined at a time for http_redirect")
    else validateHTTPRedirectLoop rest

/-- Function `validateHTTPRedirectChange`. -/
def validateHTTPRedirectChange (d : ResourceDiff) : Option Error :=
  validateHTTPRedirectLoop d.actions0.http_redirect

/-- Function `validateActionsNotEmpty`. -/
def validateActionsNotEmpty (d : ResourceDiff) : Option Error :=
  match d.getActions0Map with
  | none => some (Error.message "received actions in unknown format")
  | some actions =>
    if actions.length = 0 then
      some (Error.message "actions block should contain at least one action")
    else none

/-! ## `database/user.go`: sub-resource identifiers -/

/-- The separator of the textual identifier `<parentUUID>/<subResourceName>`. -/
def managedDatabaseSubResourceIDSeparator : Char := '/'

/-- Modelled from the spec: `buildManagedDatabaseSubResourceID` is not among the
sources; the spec describes the identifier as the parent UUID and the
sub-resource name concatenated with a separator, in the format
`<parentUUID>/<subResourceName>`. -/
def buildManagedDatabaseSubResourceID (serviceID subResourceName : String) : String :=
  String.mk (serviceID.data ++ managedDatabaseSubResourceIDSeparator :: subResourceName.data)

/-- Modelled from the spec: `splitManagedDatabaseSubResourceID` is not among the
sources; the spec describes decoding as a `split` on the separator into the two
parts (parent UUID, child name).  The parent part is what precedes the first
separator and the name part what follows it; without a separator the name part
is empty. -/
def splitManagedDatabaseSubResourceID (packed : String) : String × String :=
  (String.mk (packed.data.takeWhile (fun c => c ≠ managedDatabaseSubResourceIDSeparator)),
   String.mk ((packed.data.dropWhile (fun c => c ≠ managedDatabaseSubResourceIDSeparator)).drop 1))

/-- The part of the user resource data the identifier code touches: the resource
ID and the attributes `service` and `username`. -/
structure UserResourceData where
  id : String
  service : String
  username : String
  deriving DecidableEq, Repr

/-- The `StateContext` function of the `Importer` of `ResourceUser`: the resource
data after the call, and the returned `([]*schema.ResourceData, error)`.  Setting a
string attribute of the schema does not fail. -/
def ResourceUser_Importer_StateContext (data : UserResourceData) :
    UserResourceData × Except Error (List UserResourceData) :=
  let (serviceID, user) := splitManagedDatabaseSubResourceID data.id
  if serviceID = "" || user = "" then
    (data, Except.error
      (Error.message "invalid import id. Format: <managedDatabaseUUID>/<username>"))
  else
    let data := { data with service := serviceID }
    let data := { data with username := user }
    (data, Except.ok [data])

/-- Line `d.SetId(buildManagedDatabaseSubResourceID(serviceID, d.Get("username").(string)))`
of `resourceUserCreate`, with `serviceID := d.Get("service").(string)`. -/
def resourceUserCreate_SetId (d : UserResourceData) : UserResourceData :=
  let serviceID := d.service
  { d with id := buildManagedDatabaseSubResourceID serviceID d.username }

/-- Line `serviceID, username := splitManagedDatabaseSubResourceID(d.Id())` of
`resourceUserRead`. -/
def resourceUserRead_splitId (d : UserResourceData) : String × String :=
  splitManagedDatabaseSubResourceID d.id

/-! ## Diagnostics (`diag.Diagnostics`), `utils/diagnostic.go` and schema validators -/

/-- The type `diag.Severity` with its constants `diag.Error` and `diag.Warning`. -/
inductive Severity where
  | Error
  | Warning
  deriving DecidableEq, Repr

/-- The text of a diagnostic summary: a string, or the message `err.Error()` of an
error value. -/
inductive Text where
  | literal (s : String)
  | errorText (err : Error)
  deriving DecidableEq, Repr

/-- The struct `diag.Diagnostic`, reduced to `Severity`, `Summary` and `Detail`. -/
structure Diagnostic where
  Severity : Severity
  Summary : Text
  Detail : String
  deriving DecidableEq, Repr

/-- The slice `diag.Diagnostics`; `nil` is the empty list. -/
abbrev Diagnostics := List Diagnostic

/-- Function `diag.FromErr(err)` for a non-nil error: one diagnostic of severity
`diag.Error` whose summary is `err.Error()`. -/
def FromErr (err : Error) : Diagnostics :=
  [{ Severity := Severity.Error, Summary := Text.errorText err, Detail := "" }]

/-- The API error `upcloud.Problem`, reduced to the field the code reads. -/
structure Problem where
  Title : String
  deriving DecidableEq, Repr

/-- Function `diagWarningFromUpcloudProblem`. -/
def diagWarningFromUpcloudProblem (err : Problem) (details : String) : Diagnostic :=
  { Severity := Severity.Warning, Summary := Text.literal err.Title, Detail := details }

/-- Function `diagBindingRemovedWarningFromUpcloudProblem`; `fmt.Sprintf` with the
verb `%s` on a string inserts the string. -/
def diagBindingRemovedWarningFromUpcloudProblem (err : Problem) (name : String) : Diagnostic :=
  diagWarningFromUpcloudProblem err
    ("Binding to an existing remote object '" ++ name ++
      "' will be removed from the state. Next plan will include action to re-create the object if you choose to keep it in config.")

def IPAddressFamilyIPv4 : String := "IPv4"
def IPAddressFamilyIPv6 : String := "IPv6"

/-- The `ValidateDiagFunc` of the attribute `ip_network.family` in `ResourceNetwork`. -/
def ResourceNetwork_family_ValidateDiagFunc (v : String) : Diagnostics :=
  if v = IPAddressFamilyIPv4 ∨ v = IPAddressFamilyIPv6 then []
  else
    [{ Severity := Severity.Error,
       Summary := Text.literal "'family' has incorrect value",
       Detail := "'family' should have value of " ++ IPAddressFamilyIPv4 ++ " or " ++
         IPAddressFamilyIPv6 }]

/-- Function `strings.EqualFold`, for ASCII letters.  It is reached only when a
validator is built with `ignoreCase = true`. -/
def EqualFold (s t : String) : Bool :=
  s.toLower == t.toLower

/-- The loop of `validation.StringInSlice` over `valid`: whether `v` matches an entry. -/
def StringInSlice_loop (ignoreCase : Bool) (v : String) : List String → Bool
  | [] => false
  | str :: rest =>
    if v = str || (ignoreCase && EqualFold v str) then true
    else StringInSlice_loop ignoreCase v rest

/-- The validator `validation.StringInSlice(valid, ignoreCase)` of the plugin SDK,
applied to the string `i` under the key `k`: the returned `(warnings, errors)`. -/
def StringInSlice (valid : List String) (ignoreCase : Bool) (i : String) (k : String) :
    List String × List Error :=
  if StringInSlice_loop ignoreCase i valid then ([], [])
  else
    ([], [Error.errorf "expected %s to be one of %q, got %s"
      [FmtArg.str k, FmtArg.strs valid, FmtArg.str i]])

/-- The adapter `validation.ToDiagFunc(validator)` of the plugin SDK: every warning
becomes a `diag.Warning` and every error a `diag.Error` diagnostic.  `key` is the
last attribute name of the path. -/
def ToDiagFunc (validator : String → String → List String × List Error) (i : String)
    (key : String) : Diagnostics :=
  let (ws, es) := validator i key
  ws.map (fun w => { Severity := Severity.Warning, Summary := Text.literal w, Detail := "" }) ++
  es.map (fun e => { Severity := Severity.Error, Summary := Text.errorText e, Detail := "" })

def LoadBalancerActionHTTPRedirectSchemeHTTP : String := "http"
def LoadBalancerActionHTTPRedirectSchemeHTTPS : String := "https"

/-- The `ValidateDiagFunc` of `http_redirect.scheme` in `frontendRuleActionsSchema`. -/
def frontendRuleActionsSchema_scheme_ValidateDiagFunc (v : String) (key : String) :
    Diagnostics :=
  ToDiagFunc
    (StringInSlice
      [LoadBalancerActionHTTPRedirectSchemeHTTP, LoadBalancerActionHTTPRedirectSchemeHTTPS]
      false)
    v key

/-! ## `database/user.go`: schema -/

/-- The keys of `schemaUser`. -/
def schemaUser_keys : List String :=
  ["service", "username", "password", "type", "authentication", "pg_access_control",
   "redis_access_control", "opensearch_access_control"]

/-- The `ConflictsWith` declaration of the attribute `key` in `schemaUser`: only
`pg_access_control` declares one. -/
def schemaUser_ConflictsWith (key : String) : List String :=
  if key = "pg_access_control" then ["redis_access_control", "opensearch_access_control"]
  else []

/-- Function `validateConflictingAttributes` of the plugin SDK for the attribute
`k`: an error for the first key of its `ConflictsWith` list that is set in the
configuration `c` (the list of keys that are set). -/
def validateConflictingAttributes (k : String) (conflictsWith : List String)
    (c : List String) : Option Error :=
  match conflictsWith.find? (fun conflictingKey => decide (conflictingKey ∈ c)) with
  | some conflictingKey =>
    some (Error.errorf "%q: conflicts with %s" [FmtArg.str k, FmtArg.str conflictingKey])
  | none => none

/-- The `ConflictsWith` part of the validation of a configuration against
`schemaUser`: the check runs for every attribute that is set. -/
def schemaUser_validateConflicts (c : List String) : List Error :=
  schemaUser_keys.filterMap (fun k =>
    if k ∈ c then validateConflictingAttributes k (schemaUser_ConflictsWith k) c else none)

/-! ## `database/user.go`: resource data and API objects -/

/-- Block `pg_access_control`. -/
structure PGAccessControlBlock where
  allow_replication : Bool
  deriving DecidableEq, Repr

/-- Block `redis_access_control`. -/
structure RedisAccessControlBlock where
  categories : List String
  channels : List String
  commands : List String
  keys : List String
  deriving DecidableEq, Repr

/-- Block `opensearch_access_control.rules`. -/
structure OpenSearchRuleBlock where
  index : String
  permission : String
  deriving DecidableEq, Repr

/-- Block `opensearch_access_control`. -/
structure OpenSearchAccessControlBlock where
  rules : List OpenSearchRuleBlock
  deriving DecidableEq, Repr

/-- The resource data of a database user (`schemaUser`): the identifier part and
the remaining attributes.  `changed` lists the keys for which `d.HasChange`
reports a pending change. -/
structure UserResource extends UserResourceData where
  password : String
  type : String
  authentication : String
  pg_access_control : List PGAccessControlBlock
  redis_access_control : List RedisAccessControlBlock
  opensearch_access_control : List OpenSearchAccessControlBlock
  changed : List String
  deriving DecidableEq, Repr

/-- Method `d.HasChange(key)`. -/
def UserResource.HasChange (d : UserResource) (key : String) : Bool :=
  decide (key ∈ d.changed)

/-- Read `d.Get("pg_access_control.0.allow_replication")`: the zero value `false`
without a block. -/
def UserResource.get_pg_allow_replication (d : UserResource) : Bool :=
  match d.pg_access_control with
  | [] => false
  | b :: _ => b.allow_replication

/-- The block addressed by `redis_access_control.0`; reading below a missing
block yields empty lists. -/
def UserResource.redis0 (d : UserResource) : RedisAccessControlBlock :=
  match d.redis_access_control with
  | [] => { categories := [], channels := [], commands := [], keys := [] }
  | b :: _ => b

/-- Read `d.Get("opensearch_access_control.0.rules")`. -/
def UserResource.get_opensearch_rules (d : UserResource) : List OpenSearchRuleBlock :=
  match d.opensearch_access_control with
  | [] => []
  | b :: _ => b.rules

/-- Read `d.Get("opensearch_access_control.0.rules.<i>.index")`: the zero value
`""` when there is no such rule. -/
def UserResource.get_opensearch_rule_index (d : UserResource) (i : Nat) : String :=
  match d.get_opensearch_rules[i]? with
  | some r => r.index
  | none => ""

/-- Read `d.Get("opensearch_access_control.0.rules.<i>.permission")`. -/
def UserResource.get_opensearch_rule_permission (d : UserResource) (i : Nat) : String :=
  match d.get_opensearch_rules[i]? with
  | some r => r.permission
  | none => ""

def ManagedDatabaseUserTypeNormal : String := "normal"
def ManagedDatabaseUserTypePrimary : String := "primary"
def ManagedDatabaseServiceTypeMySQL : String := "mysql"
def ManagedDatabaseServiceTypePostgreSQL : String := "pg"
def ManagedDatabaseServiceTypeRedis : String := "redis"
def ManagedDatabaseServiceTypeOpenSearch : String := "opensearch"

/-- The service details `upcloud.ManagedDatabase`, reduced to the fields the code
reads (`Type_` is the field `Type`). -/
structure ManagedDatabase where
  Name : String
  Powered : Bool
  Type_ : String
  deriving DecidableEq, Repr

/-- Payload `upcloud.ManagedDatabaseUserPGAccessControl`. -/
structure ManagedDatabaseUserPGAccessControl where
  AllowReplication : Bool
  deriving DecidableEq, Repr

/-- Payload `upcloud.ManagedDatabaseUserRedisAccessControl`. -/
structure ManagedDatabaseUserRedisAccessControl where
  Categories : List String
  Channels : List String
  Commands : List String
  Keys : List String
  deriving DecidableEq, Repr

/-- Rule `upcloud.ManagedDatabaseUserOpenSearchAccessControlRule`. -/
structure ManagedDatabaseUserOpenSearchAccessControlRule where
  Index : String
  Permission : String
  deriving DecidableEq, Repr

/-- Payload `upcloud.ManagedDatabaseUserOpenSearchAccessControl`. -/
structure ManagedDatabaseUserOpenSearchAccessControl where
  Rules : List ManagedDatabaseUserOpenSearchAccessControlRule
  deriving DecidableEq, Repr

/-- The user details `upcloud.ManagedDatabaseUser`, reduced to the fields the code
reads (`Type_` is the field `Type`). -/
structure ManagedDatabaseUser where
  Username : String
  Password : String
  Type_ : String
  Authentication : String
  PGAccessControl : Option ManagedDatabaseUserPGAccessControl
  RedisAccessControl : Option ManagedDatabaseUserRedisAccessControl
  deriving DecidableEq, Repr

/-- Request `request.GetManagedDatabaseRequest`. -/
structure GetManagedDatabaseRequest where
  UUID : String
  deriving DecidableEq, Repr

/-- Request `request.GetManagedDatabaseUserRequest`. -/
structure GetManagedDatabaseUserRequest where
  ServiceUUID : String
  Username : String
  deriving DecidableEq, Repr

/-- Request `request.CreateManagedDatabaseUserRequest`; an access-control pointer
that is not assigned is `none`. -/
structure CreateManagedDatabaseUserRequest where
  ServiceUUID : String
  Username : String
  Password : String
  Authentication : String
  PGAccessControl : Option ManagedDatabaseUserPGAccessControl
  RedisAccessControl : Option ManagedDatabaseUserRedisAccessControl
  OpenSearchAccessControl : Option ManagedDatabaseUserOpenSearchAccessControl
  deriving DecidableEq, Repr

/-- Request `request.ModifyManagedDatabaseUserRequest`. -/
structure ModifyManagedDatabaseUserRequest where
  ServiceUUID : String
  Username : String
  Password : String
  Authentication : String
  deriving DecidableEq, Repr

/-- Request `request.ModifyManagedDatabaseUserAccessControlRequest`. -/
structure ModifyManagedDatabaseUserAccessControlRequest where
  ServiceUUID : String
  Username : String
  PGAccessControl : Option ManagedDatabaseUserPGAccessControl
  RedisAccessControl : Option ManagedDatabaseUserRedisAccessControl
  OpenSearchAccessControl : Option ManagedDatabaseUserOpenSearchAccessControl
  deriving DecidableEq, Repr

/-- Request `request.DeleteManagedDatabaseUserRequest`. -/
structure DeleteManagedDatabaseUserRequest where
  ServiceUUID : String
  Username : String
  deriving DecidableEq, Repr

/-- One outbound call of a handler, in the order the calls are made: a method of
the API client with its request, or the start of the readiness wait
`resourceUpCloudManagedDatabaseWaitState` for a service. -/
inductive Call where
  | GetManagedDatabase (r : GetManagedDatabaseRequest)
  | GetManagedDatabaseUser (r : GetManagedDatabaseUserRequest)
  | CreateManagedDatabaseUser (r : CreateManagedDatabaseUserRequest)
  | ModifyManagedDatabaseUser (r : ModifyManagedDatabaseUserRequest)
  | ModifyManagedDatabaseUserAccessControl (r : ModifyManagedDatabaseUserAccessControlRequest)
  | DeleteManagedDatabaseUser (r : DeleteManagedDatabaseUserRequest)
  | WaitState (serviceID : String)
  deriving DecidableEq, Repr

/-- The API client `service.Service`: the answer of every method may depend on the
calls made before it. -/
structure Service where
  GetManagedDatabase : List Call → GetManagedDatabaseRequest → Except Error ManagedDatabase
  GetManagedDatabaseUser :
    List Call → GetManagedDatabaseUserRequest → Except Error ManagedDatabaseUser
  CreateManagedDatabaseUser :
    List Call → CreateManagedDatabaseUserRequest → Except Error ManagedDatabaseUser
  ModifyManagedDatabaseUser :
    List Call → ModifyManagedDatabaseUserRequest → Except Error ManagedDatabaseUser
  ModifyManagedDatabaseUserAccessControl :
    List Call → ModifyManagedDatabaseUserAccessControlRequest →
      Except Error ManagedDatabaseUser
  DeleteManagedDatabaseUser : List Call → DeleteManagedDatabaseUserRequest → Option Error

/-- What a handler runs against: the API client (`meta.(*service.Service)`) and the
two helpers of this repository that are not among the sources, taken as
parameters: the readiness wait `resourceUpCloudManagedDatabaseWaitState` (for a
service ID, the final service details or an error) and `utils.HandleResourceError`
(for a name, the resource data and an error, the resource data and the
diagnostics it returns). -/
structure Meta where
  client : Service
  resourceUpCloudManagedDatabaseWaitState : List Call → String → Except Error ManagedDatabase
  HandleResourceError : String → UserResource → Error → UserResource × Diagnostics

/-- The outcome of a handler: the resource data after the call, the calls made so
far and the returned diagnostics. -/
structure HandlerResult where
  d : UserResource
  calls : List Call
  diags : Diagnostics
  deriving DecidableEq, Repr

/-! ## `database/user.go`: handlers -/

/-- The copy loop `acl.X = make([]string, len(v)); for i := range v { acl.X[i] = v[i].(string) }`
of `redisAccessControlFromResourceData`. -/
def copyStringsLoop (v : List String) : List String :=
  (List.range v.length).foldl (fun acl i => acl.set i (v.getD i ""))
    (List.replicate v.length "")

/-- Function `redisAccessControlFromResourceData`. -/
def redisAccessControlFromResourceData (d : UserResource) :
    ManagedDatabaseUserRedisAccessControl :=
  { Categories := copyStringsLoop d.redis0.categories,
    Channels := copyStringsLoop d.redis0.channels,
    Commands := copyStringsLoop d.redis0.commands,
    Keys := copyStringsLoop d.redis0.keys }

/-- Function `openSearchAccessControlFromResourceData`: the rules start as zero
values and rule `i` receives the configured index and permission. -/
def openSearchAccessControlFromResourceData (d : UserResource) :
    ManagedDatabaseUserOpenSearchAccessControl :=
  let v := d.get_opensearch_rules
  { Rules := (List.range v.length).foldl
      (fun rules i =>
        let rules := rules.modify (fun r => { r with Index := d.get_opensearch_rule_index i }) i
        rules.modify (fun r => { r with Permission := d.get_opensearch_rule_permission i }) i)
      (List.replicate v.length { Index := "", Permission := "" }) }

/-- Function `copyUserDetailsToResource`: setting an attribute to a value of its
schema type does not fail, so the returned diagnostics are `nil`. -/
def copyUserDetailsToResource (d : UserResource) (details : ManagedDatabaseUser) :
    UserResource × Diagnostics :=
  let d := { d with username := details.Username }
  let d := { d with password := details.Password }
  let d := { d with type := details.Type_ }
  let d := if details.Authentication ≠ "" then
      { d with authentication := details.Authentication } else d
  let d := match details.PGAccessControl with
    | some pg => { d with pg_access_control := [{ allow_replication := pg.AllowReplication }] }
    | none => d
  let d := match details.RedisAccessControl with
    | some r =>
      { d with redis_access_control :=
          [{ categories := r.Categories, channels := r.Channels, commands := r.Commands,
             keys := r.Keys }] }
    | none => d
  (d, [])

/-- Function `resourceUserRead`. -/
def resourceUserRead (m : Meta) (d : UserResource) (calls : List Call) : HandlerResult :=
  let (serviceID, username) := splitManagedDatabaseSubResourceID d.id
  let r1 := m.client.GetManagedDatabase calls { UUID := serviceID }
  let calls := calls ++ [Call.GetManagedDatabase { UUID := serviceID }]
  match r1 with
  | Except.error err =>
    let (d, diags) := m.HandleResourceError d.username d err
    { d := d, calls := calls, diags := diags }
  | Except.ok _ =>
    let r2 := m.client.GetManagedDatabaseUser calls
      { ServiceUUID := serviceID, Username := username }
    let calls := calls ++
      [Call.GetManagedDatabaseUser { ServiceUUID := serviceID, Username := username }]
    match r2 with
    | Except.error err =>
      let (d, diags) := m.HandleResourceError d.username d err
      { d := d, calls := calls, diags := diags }
    | Except.ok userDetails =>
      let (d, diags) := copyUserDetailsToResource d userDetails
      { d := d, calls := calls, diags := diags }

/-- The request built by `resourceUserCreate` (`req := ...` and the `switch` on
`serviceDetails.Type`); the checked assertions on `d.Get` results succeed, the
values having the type of the schema. -/
def resourceUserCreate_request (d : UserResource) (serviceID : String)
    (serviceDetails : ManagedDatabase) : CreateManagedDatabaseUserRequest :=
  let req : CreateManagedDatabaseUserRequest :=
    { ServiceUUID := serviceID, Username := d.username, Password := d.password,
      Authentication := "", PGAccessControl := none, RedisAccessControl := none,
      OpenSearchAccessControl := none }
  if serviceDetails.Type_ = ManagedDatabaseServiceTypeMySQL then
    if d.authentication ≠ "" then { req with Authentication := d.authentication } else req
  else if serviceDetails.Type_ = ManagedDatabaseServiceTypePostgreSQL then
    { req with PGAccessControl := some { AllowReplication := d.get_pg_allow_replication } }
  else if serviceDetails.Type_ = ManagedDatabaseServiceTypeRedis then
    { req with RedisAccessControl := some (redisAccessControlFromResourceData d) }
  else if serviceDetails.Type_ = ManagedDatabaseServiceTypeOpenSearch then
    { req with OpenSearchAccessControl := some (openSearchAccessControlFromResourceData d) }
  else req

/-- Function `resourceUserCreate`, started after the calls `calls`. -/
def resourceUserCreate (m : Meta) (d : UserResource) (calls : List Call) : HandlerResult :=
  if d.HasChange "type" && d.type ≠ ManagedDatabaseUserTypeNormal then
    { d := d, calls := calls,
      diags := FromErr (Error.message "only type `normal` users can be created") }
  else
    let serviceID := d.service
    let r1 := m.client.GetManagedDatabase calls { UUID := serviceID }
    let calls := calls ++ [Call.GetManagedDatabase { UUID := serviceID }]
    match r1 with
    | Except.error err => { d := d, calls := calls, diags := FromErr err }
    | Except.ok serviceDetails =>
      if !serviceDetails.Powered then
        { d := d, calls := calls,
          diags := FromErr (Error.errorf
            "cannot create a user while managed database %v (%v) is powered off"
            [FmtArg.str serviceDetails.Name, FmtArg.str serviceID]) }
      else
        let r2 := m.resourceUpCloudManagedDatabaseWaitState calls serviceID
        let calls := calls ++ [Call.WaitState serviceID]
        match r2 with
        | Except.error err => { d := d, calls := calls, diags := FromErr err }
        | Except.ok serviceDetails =>
          let req := resourceUserCreate_request d serviceID serviceDetails
          let r3 := m.client.CreateManagedDatabaseUser calls req
          let calls := calls ++ [Call.CreateManagedDatabaseUser req]
          match r3 with
          | Except.error err => { d := d, calls := calls, diags := FromErr err }
          | Except.ok _ =>
            let d := { d with id := buildManagedDatabaseSubResourceID serviceID d.username }
            resourceUserRead m d calls

/-- Function `modifyPostgreSQLUserAccessControl`: the request it sends. -/
def modifyPostgreSQLUserAccessControl_request (d : UserResource) :
    ModifyManagedDatabaseUserAccessControlRequest :=
  { ServiceUUID := d.service, Username := d.username,
    PGAccessControl := some { AllowReplication := d.get_pg_allow_replication },
    RedisAccessControl := none, OpenSearchAccessControl := none }

/-- Function `modifyRedisUserAccessControl`: the request it sends. -/
def modifyRedisUserAccessControl_request (d : UserResource) :
    ModifyManagedDatabaseUserAccessControlRequest :=
  { ServiceUUID := d.service, Username := d.username, PGAccessControl := none,
    RedisAccessControl := some (redisAccessControlFromResourceData d),
    OpenSearchAccessControl := none }

/-- Function `modifyOpenSearchUserAccessControl`: the request it sends. -/
def modifyOpenSearchUserAccessControl_request (d : UserResource) :
    ModifyManagedDatabaseUserAccessControlRequest :=
  { ServiceUUID := d.service, Username := d.username, PGAccessControl := none,
    RedisAccessControl := none,
    OpenSearchAccessControl := some (openSearchAccessControlFromResourceData d) }

/-- The `switch serviceDetails.Type` of `resourceUserUpdate`: the access-control
request to send, if any. -/
def resourceUserUpdate_accessControl (d : UserResource) (serviceDetails : ManagedDatabase) :
    Option ModifyManagedDatabaseUserAccessControlRequest :=
  if serviceDetails.Type_ = ManagedDatabaseServiceTypePostgreSQL then
    if d.HasChange "pg_access_control.0" then some (modifyPostgreSQLUserAccessControl_request d)
    else none
  else if serviceDetails.Type_ = ManagedDatabaseServiceTypeRedis then
    if d.HasChange "redis_access_control.0" then some (modifyRedisUserAccessControl_request d)
    else none
  else if serviceDetails.Type_ = ManagedDatabaseServiceTypeOpenSearch then
    if d.HasChange "opensearch_access_control.0" then
      some (modifyOpenSearchUserAccessControl_request d)
    else none
  else none

/-- Function `resourceUserUpdate`, started after the calls `calls`. -/
def resourceUserUpdate (m : Meta) (d : UserResource) (calls : List Call) : HandlerResult :=
  let serviceID := d.service
  let r1 := m.client.GetManagedDatabase calls { UUID := serviceID }
  let calls := calls ++ [Call.GetManagedDatabase { UUID := serviceID }]
  match r1 with
  | Except.error err => { d := d, calls := calls, diags := FromErr err }
  | Except.ok serviceDetails =>
    if !serviceDetails.Powered then
      { d := d, calls := calls,
        diags := FromErr (Error.errorf
          "cannot modify a user while managed database %v (%v) is powered off"
          [FmtArg.str serviceDetails.Name, FmtArg.str serviceID]) }
    else
      let (serviceID, username) := splitManagedDatabaseSubResourceID d.id
      let r2 := m.resourceUpCloudManagedDatabaseWaitState calls serviceID
      let calls := calls ++ [Call.WaitState serviceID]
      match r2 with
      | Except.error err => { d := d, calls := calls, diags := FromErr err }
      | Except.ok serviceDetails =>
        let req : ModifyManagedDatabaseUserRequest :=
          { ServiceUUID := serviceID, Username := username, Password := d.password,
            Authentication := "" }
        let req :=
          if serviceDetails.Type_ = ManagedDatabaseServiceTypeMySQL then
            if d.authentication ≠ "" then { req with Authentication := d.authentication }
            else req
          else req
        let r3 := m.client.ModifyManagedDatabaseUser calls req
        let calls := calls ++ [Call.ModifyManagedDatabaseUser req]
        match r3 with
        | Except.error err => { d := d, calls := calls, diags := FromErr err }
        | Except.ok _ =>
          match resourceUserUpdate_accessControl d serviceDetails with
          | none => resourceUserRead m d calls
          | some acReq =>
            let r4 := m.client.ModifyManagedDatabaseUserAccessControl calls acReq
            let calls := calls ++ [Call.ModifyManagedDatabaseUserAccessControl acReq]
            match r4 with
            | Except.error err => { d := d, calls := calls, diags := FromErr err }
            | Except.ok _ => resourceUserRead m d calls

/-- Function `resourceUserDelete`, started after the calls `calls`. -/
def resourceUserDelete (m : Meta) (d : UserResource) (calls : List Call) : HandlerResult :=
  if d.type = ManagedDatabaseUserTypePrimary then
    if d.HasChange "username" then
      { d := d, calls := calls,
        diags := FromErr
          (Error.errorf "primary username cannot be changed %q" [FmtArg.str d.id]) }
    else { d := d, calls := calls, diags := [] }
  else
    let serviceID := d.service
    let r1 := m.client.GetManagedDatabase calls { UUID := serviceID }
    let calls := calls ++ [Call.GetManagedDatabase { UUID := serviceID }]
    match r1 with
    | Except.error err => { d := d, calls := calls, diags := FromErr err }
    | Except.ok serviceDetails =>
      if !serviceDetails.Powered then
        { d := d, calls := calls,
          diags := FromErr (Error.errorf
            "cannot delete a user while managed database %v (%v) is powered off"
            [FmtArg.str serviceDetails.Name, FmtArg.str serviceID]) }
      else
        let (serviceID, username) := splitManagedDatabaseSubResourceID d.id
        let r2 := m.resourceUpCloudManagedDatabaseWaitState calls serviceID
        let calls := calls ++ [Call.WaitState serviceID]
        match r2 with
        | Except.error err => { d := d, calls := calls, diags := FromErr err }
        | Except.ok _ =>
          let r3 := m.client.DeleteManagedDatabaseUser calls
            { ServiceUUID := serviceID, Username := username }
          let calls := calls ++
            [Call.DeleteManagedDatabaseUser { ServiceUUID := serviceID, Username := username }]
          match r3 with
          | some err => { d := d, calls := calls, diags := FromErr err }
          | none => { d := d, calls := calls, diags := [] }

/-! ## Reference functions used in the proofs -/

/-- Whether an `http_redirect` element sets both `location` and `scheme`. -/
def redirectBoth : Option HTTPRedirectBlock → Bool
  | none => false
  | some b => b.location ≠ "" && b.scheme ≠ ""

/-- The actions emitted for one `http_redirect` element that does not set both attributes. -/
def redirectActions : Option HTTPRedirectBlock → List LoadBalancerAction
  | none => []
  | some b =>
    (if b.location ≠ "" then [NewLoadBalancerHTTPRedirectAction b.location] else []) ++
    (if b.scheme ≠ "" then [NewLoadBalancerHTTPRedirectSchemeAction b.scheme] else [])

/-- The actions emitted for a block, kind by kind, in emission order. -/
def emittedActions (b : ActionsBlock) : List LoadBalancerAction :=
  b.set_forwarded_headers.map (fun _ => NewLoadBalancerSetForwardedHeadersAction) ++
  (b.use_backend.map (fun v => NewLoadBalancerUseBackendAction v.backend_name) ++
  (b.http_return.map (fun v => NewLoadBalancerHTTPReturnAction v.status v.content_type v.payload) ++
  (b.http_redirect.flatMap redirectActions ++
   b.tcp_reject.map (fun _ => NewLoadBalancerTCPRejectAction))))

/-- The apply-time error of the `http_redirect` loop. -/
def errRedirectNotBoth : Error :=
  Error.message "http_redirect action can have either target location or target scheme not both"

/-- The plan-time error for an `http_redirect` block with both attributes. -/
def errRedirectOnlyEither : Error :=
  Error.message "only either location or scheme should be defined at a time for http_redirect"

/-- The plan-time error for an empty `http_redirect` block. -/
def errRedirectUndefined : Error :=
  Error.message "either location or scheme should be defined for http_redirect"

/-- The error of `validateActionsNotEmpty` for a block without actions. -/
def errActionsEmpty : Error :=
  Error.message "actions block should contain at least one action"

/-- Whether the type tag of an API action is one of the five supported types. -/
def LoadBalancerAction.supportedType (a : LoadBalancerAction) : Bool :=
  a.Type_ = LoadBalancerActionTypeUseBackend || a.Type_ = LoadBalancerActionTypeHTTPRedirect ||
    a.Type_ = LoadBalancerActionTypeHTTPReturn || a.Type_ = LoadBalancerActionTypeTCPReject ||
    a.Type_ = LoadBalancerActionTypeSetForwardedHeaders

/-- Whether an action carries the payload that `setFrontendRuleActionsResourceData`
dereferences for its type (`a.UseBackend`, `a.HTTPRedirect`, `a.HTTPReturn`). -/
def LoadBalancerAction.payloadPresent (a : LoadBalancerAction) : Bool :=
  if a.Type_ = LoadBalancerActionTypeUseBackend then a.UseBackend.isSome
  else if a.Type_ = LoadBalancerActionTypeHTTPRedirect then a.HTTPRedirect.isSome
  else if a.Type_ = LoadBalancerActionTypeHTTPReturn then a.HTTPReturn.isSome
  else true

/-- An API action of a supported type in the form in which the API delivers it and
the request constructors build it: the type tag is one of the five supported
types and the action carries the payload of its type and no other payload. -/
def LoadBalancerAction.isSupportedAPIAction (a : LoadBalancerAction) : Bool :=
  if a.Type_ = LoadBalancerActionTypeUseBackend then
    a.UseBackend.isSome && a.TCPReject.isNone && a.HTTPReturn.isNone &&
      a.HTTPRedirect.isNone && a.SetForwardedHeaders.isNone
  else if a.Type_ = LoadBalancerActionTypeHTTPRedirect then
    a.UseBackend.isNone && a.TCPReject.isNone && a.HTTPReturn.isNone &&
      a.HTTPRedirect.isSome && a.SetForwardedHeaders.isNone
  else if a.Type_ = LoadBalancerActionTypeHTTPReturn then
    a.UseBackend.isNone && a.TCPReject.isNone && a.HTTPReturn.isSome &&
      a.HTTPRedirect.isNone && a.SetForwardedHeaders.isNone
  else if a.Type_ = LoadBalancerActionTypeTCPReject then
    a.UseBackend.isNone && a.TCPReject.isSome && a.HTTPReturn.isNone &&
      a.HTTPRedirect.isNone && a.SetForwardedHeaders.isNone
  else if a.Type_ = LoadBalancerActionTypeSetForwardedHeaders then
    a.UseBackend.isNone && a.TCPReject.isNone && a.HTTPReturn.isNone &&
      a.HTTPRedirect.isNone && a.SetForwardedHeaders.isSome
  else false

/-- For an `http_redirect` action: exactly one of `Location`, `Scheme` is
non-empty.  Actions of another type satisfy it. -/
def LoadBalancerAction.redirectExactlyOne (a : LoadBalancerAction) : Bool :=
  if a.Type_ = LoadBalancerActionTypeHTTPRedirect then
    match a.HTTPRedirect with
    | some p => (decide (p.Location ≠ "")) != (decide (p.Scheme ≠ ""))
    | none => false
  else true

/-- The `use_backend` block stored for an action, if it is of that type. -/
def useBackendOf (a : LoadBalancerAction) : Option UseBackendBlock :=
  if a.Type_ = LoadBalancerActionTypeUseBackend then
    a.UseBackend.map (fun p => { backend_name := p.Backend })
  else none

/-- The `http_redirect` block stored for an action, if it is of that type. -/
def httpRedirectOf (a : LoadBalancerAction) : Option (Option HTTPRedirectBlock) :=
  if a.Type_ = LoadBalancerActionTypeHTTPRedirect then
    a.HTTPRedirect.map (fun p => some { location := p.Location, scheme := p.Scheme })
  else none

/-- The `http_return` block stored for an action, if it is of that type. -/
def httpReturnOf (a : LoadBalancerAction) : Option HTTPReturnBlock :=
  if a.Type_ = LoadBalancerActionTypeHTTPReturn then
    a.HTTPReturn.map
      (fun p => { content_type := p.ContentType, status := p.Status, payload := p.Payload })
  else none

/-- The `tcp_reject` block stored for an action, if it is of that type. -/
def tcpRejectOf (a : LoadBalancerAction) : Option ActiveBlock :=
  if a.Type_ = LoadBalancerActionTypeTCPReject then some { active := true } else none

/-- The `set_forwarded_headers` block stored for an action, if it is of that type. -/
def setForwardedHeadersOf (a : LoadBalancerAction) : Option ActiveBlock :=
  if a.Type_ = LoadBalancerActionTypeSetForwardedHeaders then some { active := true } else none

/-- The actions block in which each kind's list holds the blocks of that kind's
actions, in their original relative order. -/
def actionsBlockByKind (l : List LoadBalancerAction) : ActionsBlock :=
  { use_backend := l.filterMap useBackendOf,
    http_redirect := l.filterMap httpRedirectOf,
    http_return := l.filterMap httpReturnOf,
    tcp_reject := l.filterMap tcpRejectOf,
    set_forwarded_headers := l.filterMap setForwardedHeadersOf }

/-- A list of actions reordered into the kind order `set_forwarded_headers`,
`use_backend`, `http_return`, `http_redirect`, `tcp_reject`, the relative order
inside each kind being kept. -/
def kindOrder (l : List LoadBalancerAction) : List LoadBalancerAction :=
  l.filter (fun a => a.Type_ = LoadBalancerActionTypeSetForwardedHeaders) ++
  (l.filter (fun a => a.Type_ = LoadBalancerActionTypeUseBackend) ++
  (l.filter (fun a => a.Type_ = LoadBalancerActionTypeHTTPReturn) ++
  (l.filter (fun a => a.Type_ = LoadBalancerActionTypeHTTPRedirect) ++
   l.filter (fun a => a.Type_ = LoadBalancerActionTypeTCPReject))))

/-- The position of an action's kind in the kind order. -/
def kindRank (a : LoadBalancerAction) : Nat :=
  if a.Type_ = LoadBalancerActionTypeSetForwardedHeaders then 0
  else if a.Type_ = LoadBalancerActionTypeUseBackend then 1
  else if a.Type_ = LoadBalancerActionTypeHTTPReturn then 2
  else if a.Type_ = LoadBalancerActionTypeHTTPRedirect then 3
  else 4

/-- A list of actions that is already in kind order. -/
def inKindOrder (l : List LoadBalancerAction) : Prop :=
  l.Pairwise (fun a b => kindRank a ≤ kindRank b)

/-- The composite API actions -> state -> API actions: store the actions with
`setFrontendRuleActionsResourceData`, then rebuild them from the state with
`loadBalancerActionsFromResourceData`; `none` if either step fails. -/
def actionsStateActions (d : ResourceData) (l : List LoadBalancerAction) :
    Option (List LoadBalancerAction) :=
  match setFrontendRuleActionsResourceData d { Actions := l } with
  | Result.ok d1 =>
    match loadBalancerActionsFromResourceData d1 with
    | Except.ok a => some a
    | Except.error _ => none
  | _ => none

/-! ## Concrete configurations -/

/-- Input for C22: a `tcp_reject` and a `set_forwarded_headers` block with
`active = false`, an empty `http_redirect` block, an `http_redirect` block with
neither attribute and one with a location. -/
def C22_input : ResourceData :=
  { actions := [
      { use_backend := [],
        http_redirect := [none, some { location := "", scheme := "" },
          some { location := "/app", scheme := "" }],
        http_return := [],
        tcp_reject := [{ active := false }],
        set_forwarded_headers := [{ active := false }] }] }

/-- Input for C5: an `actions` block without any action in which the kind
`use_backend` is present as a list without elements. -/
def C5_input : ResourceDiff :=
  { actions := [ActionsBlock.empty], emptyKinds := ["use_backend"] }

/-- Input for C24: a `use_backend` action without payload followed by an action
of the unknown type `http_rewrite`. -/
def C24_input : LoadBalancerFrontendRule :=
  { Actions := [LoadBalancerAction.empty "use_backend", LoadBalancerAction.empty "http_rewrite"] }

/-- Input for C2: an empty `http_redirect` block followed by a block that sets
both `location` and `scheme`. -/
def C2_input : ResourceDiff :=
  { actions := [{ ActionsBlock.empty with
      http_redirect := [none, some { location := "/app", scheme := "https" }] }] }

/-- Input for C3: a single `http_redirect` block that sets only `scheme`. -/
def C3_input : ResourceData :=
  { actions := [{ ActionsBlock.empty with
      http_redirect := [some { location := "", scheme := "https" }] }] }

/-- Input for C4: a single non-nil `http_redirect` block whose `location` and
`scheme` are both the empty string. -/
def C4_input : ResourceDiff :=
  { actions := [{ ActionsBlock.empty with
      http_redirect := [some { location := "", scheme := "" }] }] }

/-- Input for C6: an `actions` block whose only action is one `set_forwarded_headers`. -/
def C6_input : ResourceDiff :=
  { actions := [{ ActionsBlock.empty with set_forwarded_headers := [{ active := true }] }] }

/-- Input for C8: the actions of the acceptance test `TestAccUpcloudLoadBalancer`. -/
def C8_input : ResourceData :=
  { actions := [
      { use_backend := [{ backend_name := "lb-be-1-test" }],
        http_redirect := [some { location := "/app", scheme := "" },
          some { location := "", scheme := "https" }],
        http_return := [
          { content_type := "text/plain", status := 404, payload := "UmVzb3VyY2Ugbm90IGZvdW5kIQ==" }],
        tcp_reject := [{ active := true }],
        set_forwarded_headers := [{ active := true }] }] }

/-- A client for the concrete runs: `GetManagedDatabase` and the readiness wait
answer with the service `db`, the user calls answer with the user `alice`, and no
call fails; `HandleResourceError` is taken to return the error as a diagnostic. -/
def exampleMeta (db : ManagedDatabase) : Meta :=
  { client :=
      { GetManagedDatabase := fun _ _ => Except.ok db,
        GetManagedDatabaseUser := fun _ _ =>
          Except.ok { Username := "alice", Password := "secret-password", Type_ := "normal",
                      Authentication := "", PGAccessControl := none,
                      RedisAccessControl := none },
        CreateManagedDatabaseUser := fun _ _ =>
          Except.ok { Username := "alice", Password := "secret-password", Type_ := "normal",
                      Authentication := "", PGAccessControl := none,
                      RedisAccessControl := none },
        ModifyManagedDatabaseUser := fun _ _ =>
          Except.ok { Username := "alice", Password := "secret-password", Type_ := "normal",
                      Authentication := "", PGAccessControl := none,
                      RedisAccessControl := none },
        ModifyManagedDatabaseUserAccessControl := fun _ _ =>
          Except.ok { Username := "alice", Password := "secret-password", Type_ := "normal",
                      Authentication := "", PGAccessControl := none,
                      RedisAccessControl := none },
        DeleteManagedDatabaseUser := fun _ _ => none },
    resourceUpCloudManagedDatabaseWaitState := fun _ _ => Except.ok db,
    HandleResourceError := fun _ d err => (d, FromErr err) }

/-- A user resource for the concrete runs: user `alice` of the service `svc`, with
the given `type` attribute, pending changes and `pg_access_control` blocks. -/
def exampleUser (type : String) (changed : List String)
    (pg : List PGAccessControlBlock) : UserResource :=
  { id := "svc/alice", service := "svc", username := "alice", password := "secret-password",
    type := type, authentication := "", pg_access_control := pg, redis_access_control := [],
    opensearch_access_control := [], changed := changed }

/-! ## Lemmas -/

theorem foldl_append_singleton {α β : Type} (f : α → β) (l : List α) (a : List β) :
    l.foldl (fun a v => a ++ [f v]) a = a ++ l.map f := by
  induction l generalizing a with
  | nil => simp
  | cons x xs ih => simp [ih]

theorem getOkHTTPRedirect_some (d : ResourceData) (i : Nat) (b : HTTPRedirectBlock)
    (h : d.actions0.http_redirect[i]? = some (some b)) :
    d.getOkHTTPRedirect i "location" = (b.location, decide (b.location ≠ "")) ∧
    d.getOkHTTPRedirect i "scheme" = (b.scheme, decide (b.scheme ≠ "")) := by
  simp [ResourceData.getOkHTTPRedirect, h, HTTPRedirectBlock.toMap]

theorem getOkHTTPRedirect_none (d : ResourceData) (i : Nat) (field : String)
    (h : d.actions0.http_redirect[i]? = some none) :
    d.getOkHTTPRedirect i field = ("", false) := by
  simp [ResourceData.getOkHTTPRedirect, h]

theorem httpRedirectLoop_suffix (d : ResourceData) (suf pre : List (Option HTTPRedirectBlock))
    (a : List LoadBalancerAction) (h : d.actions0.http_redirect = pre ++ suf) :
    httpRedirectLoop d (List.range' pre.length suf.length) a =
      if suf.any redirectBoth then Except.error errRedirectNotBoth
      else Except.ok (a ++ suf.flatMap redirectActions) := by
  induction suf generalizing pre a with
  | nil => simp [httpRedirectLoop]
  | cons e es ih =>
    have hget : d.actions0.http_redirect[pre.length]? = some e := by
      rw [h, List.getElem?_append_right (Nat.le_refl _)]; simp
    have h2 : d.actions0.http_redirect = (pre ++ [e]) ++ es := by simp [h]
    have ih2 := fun a => ih (pre ++ [e]) a h2
    simp only [List.length_append, List.length_singleton] at ih2
    cases e with
    | none =>
      simp [List.range'_succ, httpRedirectLoop, getOkHTTPRedirect_none d _ _ hget,
        redirectBoth, redirectActions, ih2]
    | some b =>
      have hg := getOkHTTPRedirect_some d _ b hget
      by_cases hl : b.location = "" <;> by_cases hs : b.scheme = "" <;>
        simp [List.range'_succ, httpRedirectLoop, hg.1, hg.2, redirectBoth, redirectActions,
          ih2, hl, hs, errRedirectNotBoth]

theorem hasField_eq_false_iff (b : ActionsBlock) :
    b.hasField = false ↔
      b.use_backend = [] ∧ b.http_redirect = [] ∧ b.http_return = [] ∧ b.tcp_reject = [] ∧
        b.set_forwarded_headers = [] := by
  simp [ActionsBlock.hasField, List.isEmpty_iff, and_assoc]

theorem emittedActions_nil_of_not_hasField (b : ActionsBlock) (h : b.hasField = false) :
    emittedActions b = [] := by
  obtain ⟨h1, h2, h3, h4, h5⟩ := (hasField_eq_false_iff b).1 h
  simp [emittedActions, h1, h2, h3, h4, h5]

/-- Closed form of `loadBalancerActionsFromResourceData`. -/
theorem loadBalancerActionsFromResourceData_eq (d : ResourceData) :
    loadBalancerActionsFromResourceData d =
      if d.actions0.http_redirect.any redirectBoth then Except.error errRedirectNotBoth
      else Except.ok (emittedActions d.actions0) := by
  unfold loadBalancerActionsFromResourceData
  by_cases hf : d.actions0Exists = true
  · have hloop := fun a => httpRedirectLoop_suffix d d.actions0.http_redirect [] a (by simp)
    simp only [List.length_nil] at hloop
    simp only [ResourceData.getOkActions0, hf, Bool.not_true, Bool.false_eq_true, if_false,
      List.range_eq_range', hloop, foldl_append_singleton, List.nil_append]
    by_cases hb : d.actions0.http_redirect.any redirectBoth = true
    · simp [hb]
    · simp [hb, emittedActions]
  · simp only [Bool.not_eq_true] at hf
    have hf2 : d.actions0.hasField = false := by
      simp only [ResourceData.actions0Exists, Bool.or_eq_false_iff] at hf
      exact hf.1
    have he := emittedActions_nil_of_not_hasField _ hf2
    have hr : d.actions0.http_redirect = [] := ((hasField_eq_false_iff _).1 hf2).2.1
    simp [ResourceData.getOkActions0, hf, he, hr]

theorem type_NewLoadBalancerUseBackendAction (n : String) :
    (NewLoadBalancerUseBackendAction n).Type_ = LoadBalancerActionTypeUseBackend := rfl

theorem type_NewLoadBalancerHTTPReturnAction (s : Int) (c p : String) :
    (NewLoadBalancerHTTPReturnAction s c p).Type_ = LoadBalancerActionTypeHTTPReturn := rfl

theorem type_NewLoadBalancerHTTPRedirectAction (l : String) :
    (NewLoadBalancerHTTPRedirectAction l).Type_ = LoadBalancerActionTypeHTTPRedirect := rfl

theorem type_NewLoadBalancerHTTPRedirectSchemeAction (s : String) :
    (NewLoadBalancerHTTPRedirectSchemeAction s).Type_ = LoadBalancerActionTypeHTTPRedirect := rfl

theorem type_NewLoadBalancerTCPRejectAction :
    NewLoadBalancerTCPRejectAction.Type_ = LoadBalancerActionTypeTCPReject := rfl

theorem type_NewLoadBalancerSetForwardedHeadersAction :
    NewLoadBalancerSetForwardedHeadersAction.Type_ = LoadBalancerActionTypeSetForwardedHeaders :=
  rfl

theorem emittedActions_split (b : ActionsBlock) :
    ∃ rest : List LoadBalancerAction,
      emittedActions b =
        List.replicate b.set_forwarded_headers.length NewLoadBalancerSetForwardedHeadersAction
          ++ rest ∧
      ∀ x ∈ rest, x.Type_ ≠ LoadBalancerActionTypeSetForwardedHeaders := by
  refine ⟨b.use_backend.map (fun v => NewLoadBalancerUseBackendAction v.backend_name) ++
    (b.http_return.map
        (fun v => NewLoadBalancerHTTPReturnAction v.status v.content_type v.payload) ++
      (b.http_redirect.flatMap redirectActions ++
        b.tcp_reject.map (fun _ => NewLoadBalancerTCPRejectAction))), ?_, ?_⟩
  · unfold emittedActions
    rw [List.map_const']
  · intro x hx
    simp only [List.mem_append, List.mem_map, List.mem_flatMap] at hx
    rcases hx with ⟨v, _, rfl⟩ | ⟨v, _, rfl⟩ | ⟨e, _, he⟩ | ⟨v, _, rfl⟩
    · rw [type_NewLoadBalancerUseBackendAction]; decide
    · rw [type_NewLoadBalancerHTTPReturnAction]; decide
    · cases e with
      | none => simp [redirectActions] at he
      | some r =>
        simp only [redirectActions, List.mem_append] at he
        rcases he with he | he
        · split at he
          · simp only [List.mem_singleton] at he; subst he
            rw [type_NewLoadBalancerHTTPRedirectAction]; decide
          · simp at he
        · split at he
          · simp only [List.mem_singleton] at he; subst he
            rw [type_NewLoadBalancerHTTPRedirectSchemeAction]; decide
          · simp at he
    · rw [type_NewLoadBalancerTCPRejectAction]; decide

/-! ## Claims -/

/-- C1: whenever `loadBalancerActionsFromResourceData` returns a list without
error, every `set_forwarded_headers` action of the list stands before every
action of another type: if position `i` holds a `set_forwarded_headers` action
and position `j` holds an action of any other type, then `i < j`. -/
theorem C1_set_forwarded_headers_first (d : ResourceData) (a : List LoadBalancerAction)
    (h : loadBalancerActionsFromResourceData d = Except.ok a)
    (i j : Nat) (x y : LoadBalancerAction) (hi : a[i]? = some x) (hj : a[j]? = some y)
    (hx : x.Type_ = LoadBalancerActionTypeSetForwardedHeaders)
    (hy : y.Type_ ≠ LoadBalancerActionTypeSetForwardedHeaders) : i < j := by
  rw [loadBalancerActionsFromResourceData_eq] at h
  split at h
  · cases h
  · injection h with h
    obtain ⟨rest, hsplit, hrest⟩ := emittedActions_split d.actions0
    rw [← h, hsplit] at hi hj
    by_contra hlt
    have hji : j ≤ i := Nat.le_of_not_lt hlt
    by_cases hjn : j < d.actions0.set_forwarded_headers.length
    · rw [List.getElem?_append_left (by simpa using hjn)] at hj
      have hmem := List.getElem?_mem hj
      rw [List.mem_replicate] at hmem
      exact hy (by rw [hmem.2]; rfl)
    · have hin : d.actions0.set_forwarded_headers.length ≤ i := by omega
      rw [List.getElem?_append_right (by simpa using hin)] at hi
      exact hrest x (List.getElem?_mem hi) hx

/-- C1, witness: one `set_forwarded_headers` block and one `use_backend` block. -/
theorem C1_set_forwarded_headers_first_witness :
    loadBalancerActionsFromResourceData
        { actions := [{ ActionsBlock.empty with
            use_backend := [{ backend_name := "be" }],
            set_forwarded_headers := [{ active := true }] }] }
      = Except.ok [NewLoadBalancerSetForwardedHeadersAction, NewLoadBalancerUseBackendAction "be"]
    ∧ 0 < 1 :=
  ⟨rfl, C1_set_forwarded_headers_first
    { actions := [{ ActionsBlock.empty with
        use_backend := [{ backend_name := "be" }],
        set_forwarded_headers := [{ active := true }] }] }
    [NewLoadBalancerSetForwardedHeadersAction, NewLoadBalancerUseBackendAction "be"] rfl
    0 1 NewLoadBalancerSetForwardedHeadersAction (NewLoadBalancerUseBackendAction "be")
    rfl rfl rfl (by decide)⟩

/-- C2, counterexample: the configuration has an `http_redirect` block with both
a non-empty location and a non-empty scheme, yet `validateHTTPRedirectChange`
returns the error of the empty block that precedes it, not the
"only either location or scheme" error. -/
theorem C2_counterexample :
    (∃ b : HTTPRedirectBlock, some b ∈ C2_input.actions0.http_redirect ∧
        b.location ≠ "" ∧ b.scheme ≠ "") ∧
    validateHTTPRedirectChange C2_input = some errRedirectUndefined ∧
    validateHTTPRedirectChange C2_input ≠ some errRedirectOnlyEither := by
  refine ⟨⟨{ location := "/app", scheme := "https" }, ?_, ?_, ?_⟩, ?_, ?_⟩ <;> decide

/-- C2, as amended: if an `http_redirect` block sets both a non-empty location
and a non-empty scheme, `validateHTTPRedirectChange` returns an error; the error
is "only either location or scheme should be defined at a time for
http_redirect" when no empty block precedes that block, and in every case it is
that error or the empty-block error "either location or scheme should be defined
for http_redirect". -/
theorem C2_validateHTTPRedirectChange_both (d : ResourceDiff)
    (pre suf : List (Option HTTPRedirectBlock)) (b : HTTPRedirectBlock)
    (hl : d.actions0.http_redirect = pre ++ some b :: suf)
    (hloc : b.location ≠ "") (hsch : b.scheme ≠ "") :
    (none ∉ pre → validateHTTPRedirectChange d = some errRedirectOnlyEither) ∧
    (validateHTTPRedirectChange d = some errRedirectOnlyEither ∨
      validateHTTPRedirectChange d = some errRedirectUndefined) := by
  unfold validateHTTPRedirectChange
  rw [hl]
  clear hl
  induction pre with
  | nil =>
    simp [validateHTTPRedirectLoop, getString, HTTPRedirectBlock.toMap, hloc, hsch,
      errRedirectOnlyEither]
  | cons e es ih =>
    cases e with
    | none => simp [validateHTTPRedirectLoop, errRedirectUndefined]
    | some c =>
      by_cases hc : c.location ≠ "" ∧ c.scheme ≠ ""
      · simp [validateHTTPRedirectLoop, getString, HTTPRedirectBlock.toMap, hc.1, hc.2,
          errRedirectOnlyEither]
      · have hstep : validateHTTPRedirectLoop ((some c :: es) ++ some b :: suf)
            = validateHTTPRedirectLoop (es ++ some b :: suf) := by
          simp only [List.cons_append, validateHTTPRedirectLoop, getString,
            HTTPRedirectBlock.toMap]
          simp only [not_and_or, ne_eq, not_not] at hc
          rcases hc with hc | hc <;> simp [hc]
        rw [hstep]
        refine ⟨fun hn => ih.1 (fun hmem => hn (List.mem_cons_of_mem _ hmem)), ih.2⟩

/-- C2, witness: a single block with both attributes. -/
theorem C2_validateHTTPRedirectChange_both_witness :
    (none ∉ ([] : List (Option HTTPRedirectBlock)) →
      validateHTTPRedirectChange
        { actions := [{ ActionsBlock.empty with
            http_redirect := [some { location := "/app", scheme := "https" }] }] }
        = some errRedirectOnlyEither) ∧
    (validateHTTPRedirectChange
        { actions := [{ ActionsBlock.empty with
            http_redirect := [some { location := "/app", scheme := "https" }] }] }
        = some errRedirectOnlyEither ∨
      validateHTTPRedirectChange
        { actions := [{ ActionsBlock.empty with
            http_redirect := [some { location := "/app", scheme := "https" }] }] }
        = some errRedirectUndefined) :=
  C2_validateHTTPRedirectChange_both
    { actions := [{ ActionsBlock.empty with
        http_redirect := [some { location := "/app", scheme := "https" }] }] }
    [] [] { location := "/app", scheme := "https" } rfl (by decide) (by decide)

theorem validateHTTPRedirectLoop_eq_none_iff (l : List (Option HTTPRedirectBlock)) :
    validateHTTPRedirectLoop l = none ↔ none ∉ l ∧ l.any redirectBoth = false := by
  induction l with
  | nil => simp [validateHTTPRedirectLoop]
  | cons e es ih =>
    cases e with
    | none => simp [validateHTTPRedirectLoop]
    | some c =>
      by_cases hl : c.location = "" <;> by_cases hs : c.scheme = "" <;>
        simp [validateHTTPRedirectLoop, getString, HTTPRedirectBlock.toMap, redirectBoth,
          hl, hs, ih]

/-- C3, counterexample: the configuration has one `http_redirect` block that
defines only a scheme; `validateHTTPRedirectChange` returns no error and
`loadBalancerActionsFromResourceData` returns the scheme redirect action and no
error, so neither returns a mutual-exclusivity error. -/
theorem C3_counterexample :
    C3_input.actions0.http_redirect = [some { location := "", scheme := "https" }] ∧
    validateHTTPRedirectChange C3_input = none ∧
    loadBalancerActionsFromResourceData C3_input
      = Except.ok [NewLoadBalancerHTTPRedirectSchemeAction "https"] :=
  ⟨rfl, rfl, rfl⟩

/-- C3, as amended: a configuration whose `http_redirect` blocks each define only
a scheme (no location) is accepted: `validateHTTPRedirectChange` returns no error,
and `loadBalancerActionsFromResourceData` returns a list without error that
holds the scheme redirect action of every such block. -/
theorem C3_scheme_only_accepted (d : ResourceData)
    (h : ∀ e ∈ d.actions0.http_redirect,
      ∃ b : HTTPRedirectBlock, e = some b ∧ b.location = "" ∧ b.scheme ≠ "") :
    validateHTTPRedirectChange d = none ∧
    ∃ a, loadBalancerActionsFromResourceData d = Except.ok a ∧
      ∀ b : HTTPRedirectBlock, some b ∈ d.actions0.http_redirect →
        NewLoadBalancerHTTPRedirectSchemeAction b.scheme ∈ a := by
  have hnone : none ∉ d.actions0.http_redirect := by
    intro hm
    obtain ⟨b, hb, _⟩ := h none hm
    cases hb
  have hboth : d.actions0.http_redirect.any redirectBoth = false := by
    rw [List.any_eq_false]
    intro e he
    obtain ⟨b, rfl, hl, _⟩ := h e he
    simp [redirectBoth, hl]
  refine ⟨(validateHTTPRedirectLoop_eq_none_iff _).2 ⟨hnone, hboth⟩, emittedActions d.actions0,
    ?_, ?_⟩
  · rw [loadBalancerActionsFromResourceData_eq, hboth]; rfl
  · intro b hb
    obtain ⟨c, hc, hl, hs⟩ := h (some b) hb
    cases hc
    simp only [emittedActions, List.mem_append, List.mem_flatMap]
    refine Or.inr (Or.inr (Or.inr (Or.inl ⟨some b, hb, ?_⟩)))
    simp [redirectActions, hl, hs]

/-- C3, witness: the configuration of the counterexample. -/
theorem C3_scheme_only_accepted_witness :
    validateHTTPRedirectChange C3_input = none ∧
    ∃ a, loadBalancerActionsFromResourceData C3_input = Except.ok a ∧
      ∀ b : HTTPRedirectBlock, some b ∈ C3_input.actions0.http_redirect →
        NewLoadBalancerHTTPRedirectSchemeAction b.scheme ∈ a :=
  C3_scheme_only_accepted C3_input (by
    intro e he
    refine ⟨{ location := "", scheme := "https" }, ?_, rfl, by decide⟩
    simpa [C3_input, ResourceData.actions0, ActionsBlock.empty] using he)

/-- C4, counterexample: the configuration has an `http_redirect` block whose
location and scheme are both the empty string, and `validateHTTPRedirectChange`
returns no error. -/
theorem C4_counterexample :
    C4_input.actions0.http_redirect = [some { location := "", scheme := "" }] ∧
    validateHTTPRedirectChange C4_input = none :=
  ⟨rfl, rfl⟩

/-- C4, as amended: if the configuration has an empty `http_redirect` block (one
read as `nil`) and no block before it sets both location and scheme,
`validateHTTPRedirectChange` returns the error "either location or scheme should
be defined for http_redirect". -/
theorem C4_validateHTTPRedirectChange_empty_block (d : ResourceDiff)
    (pre suf : List (Option HTTPRedirectBlock))
    (hl : d.actions0.http_redirect = pre ++ none :: suf)
    (hpre : ∀ b : HTTPRedirectBlock, some b ∈ pre → b.location = "" ∨ b.scheme = "") :
    validateHTTPRedirectChange d = some errRedirectUndefined := by
  unfold validateHTTPRedirectChange
  rw [hl]
  clear hl
  induction pre with
  | nil => simp [validateHTTPRedirectLoop, errRedirectUndefined]
  | cons e es ih =>
    have ih2 := ih (fun x hx => hpre x (List.mem_cons_of_mem _ hx))
    cases e with
    | none => simp [validateHTTPRedirectLoop, errRedirectUndefined]
    | some c =>
      have he := hpre c (List.mem_cons_self _ _)
      simp only [List.cons_append, validateHTTPRedirectLoop, getString,
        HTTPRedirectBlock.toMap]
      rcases he with he | he <;> simpa [he] using ih2

/-- C4, witness: a location redirect followed by an empty block. -/
theorem C4_validateHTTPRedirectChange_empty_block_witness :
    validateHTTPRedirectChange
      { actions := [{ ActionsBlock.empty with
          http_redirect := [some { location := "/app", scheme := "" }, none] }] }
      = some errRedirectUndefined :=
  C4_validateHTTPRedirectChange_empty_block
    { actions := [{ ActionsBlock.empty with
        http_redirect := [some { location := "/app", scheme := "" }, none] }] }
    [some { location := "/app", scheme := "" }] [] rfl (by simp)

theorem validateActionsNotEmpty_eq (d : ResourceDiff) :
    validateActionsNotEmpty d = if d.actions0Exists then none else some errActionsEmpty := by
  unfold validateActionsNotEmpty ResourceData.getActions0Map
  cases hf : d.actions0Exists <;> simp [errActionsEmpty, frontendRuleActionsSchema_keys]

theorem actions0Exists_eq_false_iff (d : ResourceData) :
    d.actions0Exists = false ↔
      (d.actions0.use_backend = [] ∧ d.actions0.http_redirect = [] ∧
        d.actions0.http_return = [] ∧ d.actions0.tcp_reject = [] ∧
        d.actions0.set_forwarded_headers = []) ∧
      ∀ kind ∈ d.emptyKinds, kind ∉ frontendRuleActionsSchema_keys := by
  simp only [ResourceData.actions0Exists, Bool.or_eq_false_iff, hasField_eq_false_iff,
    List.any_eq_false, decide_eq_true_eq]

/-- C5, counterexample: every kind of the `actions` block is an empty list, the
kind `use_backend` being present without elements, so the block contains no
action; `validateActionsNotEmpty` returns no error. -/
theorem C5_counterexample :
    C5_input.actions0.use_backend = [] ∧ C5_input.actions0.http_redirect = [] ∧
    C5_input.actions0.http_return = [] ∧ C5_input.actions0.tcp_reject = [] ∧
    C5_input.actions0.set_forwarded_headers = [] ∧
    C5_input.emptyKinds = ["use_backend"] ∧
    validateActionsNotEmpty C5_input = none :=
  ⟨rfl, rfl, rfl, rfl, rfl, rfl, rfl⟩

/-- C5, as amended: `validateActionsNotEmpty` returns the error "actions block
should contain at least one action" exactly when every one of `use_backend`,
`http_redirect`, `http_return`, `tcp_reject` and `set_forwarded_headers` is absent
(no kind holds a block and no kind is present as an empty list), and returns no
error exactly when some kind is present, with at least one block or as an empty
list; in particular it returns no error for every block with at least one action. -/
theorem C5_validateActionsNotEmpty (d : ResourceDiff) :
    (validateActionsNotEmpty d = some errActionsEmpty ↔
      ((d.actions0.use_backend = [] ∧ d.actions0.http_redirect = [] ∧
        d.actions0.http_return = [] ∧ d.actions0.tcp_reject = [] ∧
        d.actions0.set_forwarded_headers = []) ∧
       ∀ kind ∈ d.emptyKinds, kind ∉ frontendRuleActionsSchema_keys)) ∧
    (validateActionsNotEmpty d = none ↔
      ¬ ((d.actions0.use_backend = [] ∧ d.actions0.http_redirect = [] ∧
        d.actions0.http_return = [] ∧ d.actions0.tcp_reject = [] ∧
        d.actions0.set_forwarded_headers = []) ∧
       ∀ kind ∈ d.emptyKinds, kind ∉ frontendRuleActionsSchema_keys)) ∧
    (¬ (d.actions0.use_backend = [] ∧ d.actions0.http_redirect = [] ∧
        d.actions0.http_return = [] ∧ d.actions0.tcp_reject = [] ∧
        d.actions0.set_forwarded_headers = []) →
      validateActionsNotEmpty d = none) := by
  rw [← actions0Exists_eq_false_iff, validateActionsNotEmpty_eq]
  cases hf : d.actions0Exists
  · have h := ((actions0Exists_eq_false_iff d).1 hf).1
    simp [errActionsEmpty, h]
  · simp [errActionsEmpty]

/-- C5, witness: a block in which every kind is absent is rejected, and a block
with one backend passes. -/
theorem C5_validateActionsNotEmpty_witness :
    validateActionsNotEmpty { actions := [ActionsBlock.empty] } = some errActionsEmpty ∧
    validateActionsNotEmpty
        { actions := [{ ActionsBlock.empty with use_backend := [{ backend_name := "be" }] }] }
      = none :=
  ⟨(C5_validateActionsNotEmpty { actions := [ActionsBlock.empty] }).1.2
      ⟨⟨rfl, rfl, rfl, rfl, rfl⟩, by decide⟩,
   (C5_validateActionsNotEmpty
      { actions := [{ ActionsBlock.empty with use_backend := [{ backend_name := "be" }] }] }).2.2
      (by decide)⟩

/-- C6, counterexample: the `actions` block contains one `set_forwarded_headers`
action and no other action, and `validateActionsNotEmpty` returns no error. -/
theorem C6_counterexample :
    C6_input.actions0.set_forwarded_headers = [{ active := true }] ∧
    C6_input.actions0.use_backend = [] ∧ C6_input.actions0.http_redirect = [] ∧
    C6_input.actions0.http_return = [] ∧ C6_input.actions0.tcp_reject = [] ∧
    validateActionsNotEmpty C6_input = none :=
  ⟨rfl, rfl, rfl, rfl, rfl, rfl⟩

/-- C6, as amended: an `actions` block that contains only `set_forwarded_headers`
actions (one or more) and no other action passes `validateActionsNotEmpty`, which
returns no error. -/
theorem C6_only_set_forwarded_headers_passes (d : ResourceDiff)
    (hsfh : d.actions0.set_forwarded_headers ≠ [])
    (_hub : d.actions0.use_backend = []) (_hrd : d.actions0.http_redirect = [])
    (_hrt : d.actions0.http_return = []) (_htr : d.actions0.tcp_reject = []) :
    validateActionsNotEmpty d = none := by
  have hf : d.actions0Exists = true := by
    cases hf : d.actions0Exists
    · exact absurd ((actions0Exists_eq_false_iff _).1 hf).1.2.2.2.2 hsfh
    · rfl
  rw [validateActionsNotEmpty_eq, hf]
  rfl

/-- C6, witness: the configuration of the counterexample. -/
theorem C6_only_set_forwarded_headers_passes_witness :
    validateActionsNotEmpty C6_input = none :=
  C6_only_set_forwarded_headers_passes C6_input (by decide) rfl rfl rfl rfl

/-- C7: if `validateHTTPRedirectChange` returns no error for a configuration,
`loadBalancerActionsFromResourceData` on the same configuration returns a list
and a nil error; in particular it does not return its "either target location or
target scheme not both" error. -/
theorem C7_validated_config_loads (d : ResourceData)
    (h : validateHTTPRedirectChange d = none) :
    (∃ a, loadBalancerActionsFromResourceData d = Except.ok a) ∧
    loadBalancerActionsFromResourceData d ≠ Except.error errRedirectNotBoth := by
  have hb := ((validateHTTPRedirectLoop_eq_none_iff _).1 h).2
  rw [loadBalancerActionsFromResourceData_eq, hb]
  exact ⟨⟨_, rfl⟩, by simp⟩

/-- C7, witness: a configuration with a location redirect and a scheme redirect. -/
theorem C7_validated_config_loads_witness :
    (∃ a, loadBalancerActionsFromResourceData
        { actions := [{ ActionsBlock.empty with
            http_redirect := [some { location := "/app", scheme := "" },
              some { location := "", scheme := "https" }] }] } = Except.ok a) ∧
    loadBalancerActionsFromResourceData
        { actions := [{ ActionsBlock.empty with
            http_redirect := [some { location := "/app", scheme := "" },
              some { location := "", scheme := "https" }] }] }
      ≠ Except.error errRedirectNotBoth :=
  C7_validated_config_loads
    { actions := [{ ActionsBlock.empty with
        http_redirect := [some { location := "/app", scheme := "" },
          some { location := "", scheme := "https" }] }] } rfl

theorem setFrontendRuleActionsStep_useBackend (acc : ActionsMap) (n : String) :
    setFrontendRuleActionsStep acc (NewLoadBalancerUseBackendAction n) =
      Result.ok { acc with use_backend := acc.use_backend ++ [{ backend_name := n }] } := rfl

theorem setFrontendRuleActionsStep_httpReturn (acc : ActionsMap) (s : Int) (c p : String) :
    setFrontendRuleActionsStep acc (NewLoadBalancerHTTPReturnAction s c p) =
      Result.ok { acc with
        http_return := acc.http_return ++ [{ content_type := c, status := s, payload := p }] } :=
  rfl

theorem setFrontendRuleActionsStep_httpRedirect (acc : ActionsMap) (l : String) :
    setFrontendRuleActionsStep acc (NewLoadBalancerHTTPRedirectAction l) =
      Result.ok { acc with
        http_redirect := acc.http_redirect ++ [some { location := l, scheme := "" }] } := rfl

theorem setFrontendRuleActionsStep_httpRedirectScheme (acc : ActionsMap) (s : String) :
    setFrontendRuleActionsStep acc (NewLoadBalancerHTTPRedirectSchemeAction s) =
      Result.ok { acc with
        http_redirect := acc.http_redirect ++ [some { location := "", scheme := s }] } := rfl

theorem setFrontendRuleActionsStep_tcpReject (acc : ActionsMap) :
    setFrontendRuleActionsStep acc NewLoadBalancerTCPRejectAction =
      Result.ok { acc with tcp_reject := acc.tcp_reject ++ [{ active := true }] } := rfl

theorem setFrontendRuleActionsStep_setForwardedHeaders (acc : ActionsMap) :
    setFrontendRuleActionsStep acc NewLoadBalancerSetForwardedHeadersAction =
      Result.ok { acc with
        set_forwarded_headers := acc.set_forwarded_headers ++ [{ active := true }] } := rfl

/-- The loop of `setFrontendRuleActionsResourceData` as a monadic fold: when every
step on `l` succeeds with the pure update `f`, the loop continues on `rest`. -/
theorem setFrontendRuleActionsLoop_append_ok {α : Type} (f : ActionsMap → α → ActionsMap)
    (g : α → List LoadBalancerAction)
    (hstep : ∀ acc x rest, setFrontendRuleActionsLoop acc (g x ++ rest)
      = setFrontendRuleActionsLoop (f acc x) rest)
    (l : List α) (acc : ActionsMap) (rest : List LoadBalancerAction) :
    setFrontendRuleActionsLoop acc (l.flatMap g ++ rest)
      = setFrontendRuleActionsLoop (l.foldl f acc) rest := by
  induction l generalizing acc with
  | nil => simp
  | cons x xs ih =>
    simp only [List.flatMap_cons, List.append_assoc, List.foldl_cons]
    rw [hstep, ih]

theorem setFrontendRuleActionsLoop_cons_ok (acc acc2 : ActionsMap) (a : LoadBalancerAction)
    (rest : List LoadBalancerAction) (h : setFrontendRuleActionsStep acc a = Result.ok acc2) :
    setFrontendRuleActionsLoop acc (a :: rest) = setFrontendRuleActionsLoop acc2 rest := by
  simp [setFrontendRuleActionsLoop, h]

theorem foldl_use_backend (l : List UseBackendBlock) (acc : ActionsMap) :
    l.foldl (fun (acc : ActionsMap) v =>
        { acc with use_backend := acc.use_backend ++ [{ backend_name := v.backend_name }] }) acc
      = { acc with use_backend := acc.use_backend ++ l } := by
  induction l generalizing acc with
  | nil => simp
  | cons x xs ih => simp [ih]

theorem foldl_http_return (l : List HTTPReturnBlock) (acc : ActionsMap) :
    l.foldl (fun (acc : ActionsMap) v =>
        { acc with http_return := acc.http_return ++
          [{ content_type := v.content_type, status := v.status, payload := v.payload }] }) acc
      = { acc with http_return := acc.http_return ++ l } := by
  induction l generalizing acc with
  | nil => simp
  | cons x xs ih => simp [ih]

theorem foldl_tcp_reject (l : List ActiveBlock) (acc : ActionsMap)
    (h : ∀ b ∈ l, b.active = true) :
    l.foldl (fun (acc : ActionsMap) _ =>
        { acc with tcp_reject := acc.tcp_reject ++ [{ active := true }] }) acc
      = { acc with tcp_reject := acc.tcp_reject ++ l } := by
  induction l generalizing acc with
  | nil => simp
  | cons x xs ih =>
    have hx : x = { active := true } := by
      cases x; simp at h; simp [h.1]
    rw [List.foldl_cons, ih _ (fun b hb => h b (List.mem_cons_of_mem _ hb))]
    subst hx
    simp

theorem foldl_set_forwarded_headers (l : List ActiveBlock) (acc : ActionsMap)
    (h : ∀ b ∈ l, b.active = true) :
    l.foldl (fun (acc : ActionsMap) _ =>
        { acc with set_forwarded_headers := acc.set_forwarded_headers ++ [{ active := true }] })
        acc
      = { acc with set_forwarded_headers := acc.set_forwarded_headers ++ l } := by
  induction l generalizing acc with
  | nil => simp
  | cons x xs ih =>
    have hx : x = { active := true } := by
      cases x; simp at h; simp [h.1]
    rw [List.foldl_cons, ih _ (fun b hb => h b (List.mem_cons_of_mem _ hb))]
    subst hx
    simp

/-- An `http_redirect` element with exactly one of `location`, `scheme` non-empty. -/
theorem foldl_http_redirect (l : List (Option HTTPRedirectBlock)) (acc : ActionsMap)
    (h : ∀ e ∈ l, ∃ b : HTTPRedirectBlock, e = some b ∧
      ((b.location ≠ "" ∧ b.scheme = "") ∨ (b.location = "" ∧ b.scheme ≠ "")))
    (rest : List LoadBalancerAction) :
    setFrontendRuleActionsLoop acc (l.flatMap redirectActions ++ rest)
      = setFrontendRuleActionsLoop { acc with http_redirect := acc.http_redirect ++ l } rest := by
  induction l generalizing acc with
  | nil => simp
  | cons e es ih =>
    obtain ⟨b, rfl, hb⟩ := h _ (List.mem_cons_self _ _)
    have ih2 := fun acc => ih acc (fun x hx => h x (List.mem_cons_of_mem _ hx))
    obtain ⟨bl, bs⟩ := b
    simp only at hb
    rcases hb with ⟨h1, h2⟩ | ⟨h1, h2⟩
    · subst h2
      simp only [List.flatMap_cons, redirectActions, h1, ne_eq, not_false_eq_true, if_true,
        not_true_eq_false, if_false, List.append_nil, List.singleton_append, List.cons_append,
        List.nil_append]
      rw [setFrontendRuleActionsLoop_cons_ok _ _ _ _
        (setFrontendRuleActionsStep_httpRedirect acc bl), ih2]
      simp
    · subst h1
      simp only [List.flatMap_cons, redirectActions, h2, ne_eq, not_false_eq_true, if_true,
        not_true_eq_false, if_false, List.append_nil, List.singleton_append, List.cons_append,
        List.nil_append]
      rw [setFrontendRuleActionsLoop_cons_ok _ _ _ _
        (setFrontendRuleActionsStep_httpRedirectScheme acc bs), ih2]
      simp

/-- Storing the actions emitted for a block rebuilds the block. -/
theorem setFrontendRuleActionsLoop_emittedActions (b : ActionsBlock)
    (hr : ∀ e ∈ b.http_redirect, ∃ r : HTTPRedirectBlock, e = some r ∧
      ((r.location ≠ "" ∧ r.scheme = "") ∨ (r.location = "" ∧ r.scheme ≠ "")))
    (ht : ∀ x ∈ b.tcp_reject, x.active = true)
    (hs : ∀ x ∈ b.set_forwarded_headers, x.active = true) :
    setFrontendRuleActionsLoop ActionsBlock.empty (emittedActions b) = Result.ok b := by
  unfold emittedActions
  have e1 := setFrontendRuleActionsLoop_append_ok
    (fun (acc : ActionsMap) (_ : ActiveBlock) =>
      { acc with set_forwarded_headers := acc.set_forwarded_headers ++ [{ active := true }] })
    (fun _ => [NewLoadBalancerSetForwardedHeadersAction])
    (fun acc _ rest => setFrontendRuleActionsLoop_cons_ok _ _ _ rest
      (setFrontendRuleActionsStep_setForwardedHeaders acc))
  have e2 := setFrontendRuleActionsLoop_append_ok
    (fun (acc : ActionsMap) (v : UseBackendBlock) =>
      { acc with use_backend := acc.use_backend ++ [{ backend_name := v.backend_name }] })
    (fun v => [NewLoadBalancerUseBackendAction v.backend_name])
    (fun acc v rest => setFrontendRuleActionsLoop_cons_ok _ _ _ rest
      (setFrontendRuleActionsStep_useBackend acc v.backend_name))
  have e3 := setFrontendRuleActionsLoop_append_ok
    (fun (acc : ActionsMap) (v : HTTPReturnBlock) =>
      { acc with http_return := acc.http_return ++
        [{ content_type := v.content_type, status := v.status, payload := v.payload }] })
    (fun v => [NewLoadBalancerHTTPReturnAction v.status v.content_type v.payload])
    (fun acc v rest => setFrontendRuleActionsLoop_cons_ok _ _ _ rest
      (setFrontendRuleActionsStep_httpReturn acc v.status v.content_type v.payload))
  have e5 := setFrontendRuleActionsLoop_append_ok
    (fun (acc : ActionsMap) (_ : ActiveBlock) =>
      { acc with tcp_reject := acc.tcp_reject ++ [{ active := true }] })
    (fun _ => [NewLoadBalancerTCPRejectAction])
    (fun acc _ rest => setFrontendRuleActionsLoop_cons_ok _ _ _ rest
      (setFrontendRuleActionsStep_tcpReject acc))
  simp only [List.map_eq_flatMap]
  have e5n := fun l acc => e5 l acc []
  simp only [List.append_nil] at e5n
  rw [e1, e2, e3, foldl_http_redirect _ _ hr, e5n, foldl_set_forwarded_headers _ _ hs,
    foldl_use_backend, foldl_http_return, foldl_tcp_reject _ _ ht]
  simp [setFrontendRuleActionsLoop, ActionsBlock.empty]

/-- C8: round trip configuration -> API actions -> state.  If every
`http_redirect` block of the configuration has exactly one of `location`,
`scheme` non-empty and every `tcp_reject` and `set_forwarded_headers` block has
`active = true`, then `loadBalancerActionsFromResourceData` returns a list `a`
without error, `setFrontendRuleActionsResourceData` stores `a` without error, and
in the stored state every action kind holds the same blocks, with the same field
values, in the same order as in the configuration. -/
theorem C8_config_actions_state_roundtrip (d d0 : ResourceData)
    (hr : ∀ e ∈ d.actions0.http_redirect, ∃ r : HTTPRedirectBlock, e = some r ∧
      ((r.location ≠ "" ∧ r.scheme = "") ∨ (r.location = "" ∧ r.scheme ≠ "")))
    (ht : ∀ x ∈ d.actions0.tcp_reject, x.active = true)
    (hs : ∀ x ∈ d.actions0.set_forwarded_headers, x.active = true) :
    ∃ a d1, loadBalancerActionsFromResourceData d = Except.ok a ∧
      setFrontendRuleActionsResourceData d0 { Actions := a } = Result.ok d1 ∧
      d1.actions0.use_backend = d.actions0.use_backend ∧
      d1.actions0.http_redirect = d.actions0.http_redirect ∧
      d1.actions0.http_return = d.actions0.http_return ∧
      d1.actions0.tcp_reject = d.actions0.tcp_reject ∧
      d1.actions0.set_forwarded_headers = d.actions0.set_forwarded_headers := by
  have hboth : d.actions0.http_redirect.any redirectBoth = false := by
    rw [List.any_eq_false]
    intro e he
    obtain ⟨r, rfl, h | h⟩ := hr e he <;> simp [redirectBoth, h.1, h.2]
  have hload : loadBalancerActionsFromResourceData d = Except.ok (emittedActions d.actions0) := by
    rw [loadBalancerActionsFromResourceData_eq, hboth]; rfl
  have hloop := setFrontendRuleActionsLoop_emittedActions d.actions0 hr ht hs
  by_cases hlen : (emittedActions d.actions0).length = 0
  · have hnil : emittedActions d.actions0 = [] := List.length_eq_zero.1 hlen
    rw [hnil] at hloop
    simp only [setFrontendRuleActionsLoop, Result.ok.injEq] at hloop
    refine ⟨_, { d0 with actions := [] }, hload, ?_, ?_⟩
    · simp [setFrontendRuleActionsResourceData, hlen]
    · rw [← hloop]
      simp [ResourceData.actions0]
  · refine ⟨_, { d0 with actions := [d.actions0] }, hload, ?_, ?_⟩
    · simp [setFrontendRuleActionsResourceData, hlen, hloop]
    · simp [ResourceData.actions0]

/-- C8, witness: the configuration of the acceptance test (a backend, a location
redirect, a scheme redirect, an HTTP return, a TCP reject and forwarded headers). -/
theorem C8_config_actions_state_roundtrip_witness :
    ∃ a d1, loadBalancerActionsFromResourceData C8_input = Except.ok a ∧
      setFrontendRuleActionsResourceData { actions := [] } { Actions := a } = Result.ok d1 ∧
      d1.actions0.use_backend = C8_input.actions0.use_backend ∧
      d1.actions0.http_redirect = C8_input.actions0.http_redirect ∧
      d1.actions0.http_return = C8_input.actions0.http_return ∧
      d1.actions0.tcp_reject = C8_input.actions0.tcp_reject ∧
      d1.actions0.set_forwarded_headers = C8_input.actions0.set_forwarded_headers :=
  C8_config_actions_state_roundtrip C8_input { actions := [] }
    (by simp [C8_input, ResourceData.actions0]) (by decide) (by decide)

theorem takeWhile_dropWhile_append {α : Type} (p : α → Bool) (l n : List α) (x : α)
    (hl : ∀ a ∈ l, p a = true) (hx : p x = false) :
    (l ++ x :: n).takeWhile p = l ∧ (l ++ x :: n).dropWhile p = x :: n := by
  induction l with
  | nil => simp [List.takeWhile_cons, List.dropWhile_cons, hx]
  | cons c cs ih =>
    have hc := hl c (List.mem_cons_self _ _)
    have ih2 := ih (fun a ha => hl a (List.mem_cons_of_mem _ ha))
    simp [List.takeWhile_cons, List.dropWhile_cons, hc, ih2.1, ih2.2]

theorem dropWhile_eq_nil_of_all {α : Type} (p : α → Bool) (l : List α)
    (hl : ∀ a ∈ l, p a = true) : l.dropWhile p = [] := by
  induction l with
  | nil => rfl
  | cons c cs ih =>
    have hc := hl c (List.mem_cons_self _ _)
    simp [List.dropWhile_cons, hc, ih (fun a ha => hl a (List.mem_cons_of_mem _ ha))]

theorem ne_separator_of_not_mem (l : List Char)
    (h : managedDatabaseSubResourceIDSeparator ∉ l) :
    ∀ a ∈ l, (fun c => decide (c ≠ managedDatabaseSubResourceIDSeparator)) a = true := by
  intro a ha
  have : a ≠ managedDatabaseSubResourceIDSeparator := fun e => h (e ▸ ha)
  simpa using this

theorem takeWhile_separator (p n : List Char)
    (h : managedDatabaseSubResourceIDSeparator ∉ p) :
    (p ++ managedDatabaseSubResourceIDSeparator :: n).takeWhile
        (fun c => c ≠ managedDatabaseSubResourceIDSeparator) = p ∧
    (p ++ managedDatabaseSubResourceIDSeparator :: n).dropWhile
        (fun c => c ≠ managedDatabaseSubResourceIDSeparator)
      = managedDatabaseSubResourceIDSeparator :: n :=
  takeWhile_dropWhile_append _ p n _ (ne_separator_of_not_mem p h) (by simp)

theorem dropWhile_no_separator (l : List Char)
    (h : managedDatabaseSubResourceIDSeparator ∉ l) :
    l.dropWhile (fun c => c ≠ managedDatabaseSubResourceIDSeparator) = [] :=
  dropWhile_eq_nil_of_all _ l (ne_separator_of_not_mem l h)

theorem splitManagedDatabaseSubResourceID_build (parent name : String)
    (hsep : managedDatabaseSubResourceIDSeparator ∉ parent.data) :
    splitManagedDatabaseSubResourceID (buildManagedDatabaseSubResourceID parent name)
      = (parent, name) := by
  obtain ⟨h1, h2⟩ := takeWhile_separator parent.data name.data hsep
  simp only [splitManagedDatabaseSubResourceID, buildManagedDatabaseSubResourceID, h1, h2,
    List.drop_succ_cons, List.drop_zero]

/-- C9: sub-resource ID round trip.  For every non-empty parent UUID without the
separator and every non-empty user name, decoding the identifier built from
(parent, name) returns exactly (parent, name); hence the ID stored by
`resourceUserCreate` is decoded by `resourceUserRead` to the configured service
UUID and username. -/
theorem C9_subresource_id_roundtrip (parent name : String)
    (hsep : managedDatabaseSubResourceIDSeparator ∉ parent.data)
    (_hparent : parent ≠ "") (_hname : name ≠ "") :
    splitManagedDatabaseSubResourceID (buildManagedDatabaseSubResourceID parent name)
      = (parent, name) ∧
    ∀ d : UserResourceData, d.service = parent → d.username = name →
      resourceUserRead_splitId (resourceUserCreate_SetId d) = (d.service, d.username) := by
  refine ⟨splitManagedDatabaseSubResourceID_build parent name hsep, ?_⟩
  intro d hs hu
  subst hs hu
  exact splitManagedDatabaseSubResourceID_build d.service d.username hsep

/-- C9, witness: a service UUID and the user name `app/user`. -/
theorem C9_subresource_id_roundtrip_witness :
    splitManagedDatabaseSubResourceID
        (buildManagedDatabaseSubResourceID "0a1b2c3d-0000-4000-8000-000000000001" "app/user")
      = ("0a1b2c3d-0000-4000-8000-000000000001", "app/user") ∧
    ∀ d : UserResourceData, d.service = "0a1b2c3d-0000-4000-8000-000000000001" →
      d.username = "app/user" →
      resourceUserRead_splitId (resourceUserCreate_SetId d) = (d.service, d.username) :=
  C9_subresource_id_roundtrip "0a1b2c3d-0000-4000-8000-000000000001" "app/user"
    (by decide) (by decide) (by decide)

/-- C10: the database-user `StateContext` function rejects malformed identifiers.
If the import ID lacks the separator, or its parent part or its name part is
empty, it returns the error "invalid import id. Format:
<managedDatabaseUUID>/<username>" and leaves every attribute as it was.  If the
ID is `<parent>/<name>` with both parts non-empty (the parent part being what
precedes the first separator), it succeeds, sets `service` to the parent part
and `username` to the name part, and returns exactly one resource. -/
theorem C10_import_id (data : UserResourceData) :
    ((managedDatabaseSubResourceIDSeparator ∉ data.id.data ∨
        (splitManagedDatabaseSubResourceID data.id).1 = "" ∨
        (splitManagedDatabaseSubResourceID data.id).2 = "") →
      ResourceUser_Importer_StateContext data =
        (data, Except.error
          (Error.message "invalid import id. Format: <managedDatabaseUUID>/<username>"))) ∧
    (∀ parent name : String, parent ≠ "" → name ≠ "" →
      managedDatabaseSubResourceIDSeparator ∉ parent.data →
      data.id = buildManagedDatabaseSubResourceID parent name →
      ResourceUser_Importer_StateContext data =
        ({ data with service := parent, username := name },
          Except.ok [{ data with service := parent, username := name }])) := by
  constructor
  · intro h
    have h2 : (splitManagedDatabaseSubResourceID data.id).1 = "" ∨
        (splitManagedDatabaseSubResourceID data.id).2 = "" := by
      rcases h with h | h | h
      · right
        simp only [splitManagedDatabaseSubResourceID, dropWhile_no_separator _ h]
        rfl
      · exact Or.inl h
      · exact Or.inr h
    unfold ResourceUser_Importer_StateContext
    rcases h2 with h2 | h2 <;> simp [h2]
  · intro parent name hp hn hsep hid
    have hsplit := splitManagedDatabaseSubResourceID_build parent name hsep
    unfold ResourceUser_Importer_StateContext
    rw [hid, hsplit]
    simp [hp, hn]

/-- C10, witness: the ID `abc` without separator is rejected and the ID `abc/u`
is accepted. -/
theorem C10_import_id_witness :
    ResourceUser_Importer_StateContext { id := "abc", service := "", username := "" } =
        ({ id := "abc", service := "", username := "" }, Except.error
          (Error.message "invalid import id. Format: <managedDatabaseUUID>/<username>")) ∧
    ResourceUser_Importer_StateContext { id := "abc/u", service := "", username := "" } =
        ({ id := "abc/u", service := "abc", username := "u" },
          Except.ok [{ id := "abc/u", service := "abc", username := "u" }]) :=
  ⟨(C10_import_id { id := "abc", service := "", username := "" }).1 (Or.inl (by decide)),
   (C10_import_id { id := "abc/u", service := "", username := "" }).2 "abc" "u"
     (by decide) (by decide) (by decide) rfl⟩

/-- C11, counterexample: the parent database is powered off and
`resourceUserCreate` returns the "cannot create a user while managed database
... is powered off" error, but an API call, `GetManagedDatabase`, was made before
the error. -/
theorem C11_counterexample :
    (resourceUserCreate (exampleMeta { Name := "db1", Powered := false, Type_ := "pg" })
        (exampleUser "" [] []) []).diags
      = FromErr (Error.errorf
          "cannot create a user while managed database %v (%v) is powered off"
          [FmtArg.str "db1", FmtArg.str "svc"]) ∧
    (resourceUserCreate (exampleMeta { Name := "db1", Powered := false, Type_ := "pg" })
        (exampleUser "" [] []) []).calls
      = [Call.GetManagedDatabase { UUID := "svc" }] :=
  ⟨rfl, rfl⟩

/-- C11, as amended: when `GetManagedDatabase` reports the parent database as
powered off, `resourceUserUpdate`, `resourceUserCreate` (unless `type` has a
pending change to a value other than `normal`) and `resourceUserDelete` (unless
the user is of type `primary`) return the explicit error "cannot
create/modify/delete a user while managed database <name> (<uuid>) is powered
off"; the `GetManagedDatabase` call that reads the power state is the only call
made, and the resource data is left as it was. -/
theorem C11_powered_off_error (m : Meta) (d : UserResource) (calls : List Call)
    (sd : ManagedDatabase)
    (hget : m.client.GetManagedDatabase calls { UUID := d.service } = Except.ok sd)
    (hoff : sd.Powered = false) :
    ((d.HasChange "type" && d.type ≠ ManagedDatabaseUserTypeNormal) = false →
      resourceUserCreate m d calls =
        { d := d, calls := calls ++ [Call.GetManagedDatabase { UUID := d.service }],
          diags := FromErr (Error.errorf
            "cannot create a user while managed database %v (%v) is powered off"
            [FmtArg.str sd.Name, FmtArg.str d.service]) }) ∧
    resourceUserUpdate m d calls =
      { d := d, calls := calls ++ [Call.GetManagedDatabase { UUID := d.service }],
        diags := FromErr (Error.errorf
          "cannot modify a user while managed database %v (%v) is powered off"
          [FmtArg.str sd.Name, FmtArg.str d.service]) } ∧
    (d.type ≠ ManagedDatabaseUserTypePrimary →
      resourceUserDelete m d calls =
        { d := d, calls := calls ++ [Call.GetManagedDatabase { UUID := d.service }],
          diags := FromErr (Error.errorf
            "cannot delete a user while managed database %v (%v) is powered off"
            [FmtArg.str sd.Name, FmtArg.str d.service]) }) := by
  refine ⟨?_, ?_, ?_⟩
  · intro hguard
    simp only [resourceUserCreate, hguard, hget, hoff]
    rfl
  · simp only [resourceUserUpdate, hget, hoff]
    rfl
  · intro hprim
    simp only [resourceUserDelete, hprim, hget, hoff]
    rfl

/-- C11, witness: the powered-off service of the counterexample. -/
theorem C11_powered_off_error_witness :
    resourceUserUpdate (exampleMeta { Name := "db1", Powered := false, Type_ := "pg" })
        (exampleUser "normal" [] []) []
      = { d := exampleUser "normal" [] [],
          calls := [Call.GetManagedDatabase { UUID := "svc" }],
          diags := FromErr (Error.errorf
            "cannot modify a user while managed database %v (%v) is powered off"
            [FmtArg.str "db1", FmtArg.str "svc"]) } :=
  (C11_powered_off_error (exampleMeta { Name := "db1", Powered := false, Type_ := "pg" })
    (exampleUser "normal" [] []) [] { Name := "db1", Powered := false, Type_ := "pg" }
    rfl rfl).2.1

/-- C12, counterexample: deleting a user of type `primary` whose username has no
pending change returns no diagnostics at all, so no error is produced. -/
theorem C12_counterexample :
    (exampleUser "primary" [] []).type = ManagedDatabaseUserTypePrimary ∧
    resourceUserDelete (exampleMeta { Name := "db1", Powered := true, Type_ := "pg" })
        (exampleUser "primary" [] []) []
      = { d := exampleUser "primary" [] [], calls := [], diags := [] } :=
  ⟨rfl, rfl⟩

/-- C12, as amended: when a rename of a primary-type user is attempted (the type
is `primary` and `username` has a pending change), `resourceUserDelete` returns
the explicit error "primary username cannot be changed" with the resource ID, and
does so before any API call is made. -/
theorem C12_primary_rename_error (m : Meta) (d : UserResource) (calls : List Call)
    (htype : d.type = ManagedDatabaseUserTypePrimary)
    (hchange : d.HasChange "username" = true) :
    resourceUserDelete m d calls =
      { d := d, calls := calls,
        diags := FromErr
          (Error.errorf "primary username cannot be changed %q" [FmtArg.str d.id]) } := by
  simp [resourceUserDelete, htype, hchange]

/-- C12, witness: the primary user `alice` with a pending change of `username`. -/
theorem C12_primary_rename_error_witness :
    resourceUserDelete (exampleMeta { Name := "db1", Powered := true, Type_ := "pg" })
        (exampleUser "primary" ["username"] []) []
      = { d := exampleUser "primary" ["username"] [], calls := [],
          diags := FromErr
            (Error.errorf "primary username cannot be changed %q" [FmtArg.str "svc/alice"]) } :=
  C12_primary_rename_error (exampleMeta { Name := "db1", Powered := true, Type_ := "pg" })
    (exampleUser "primary" ["username"] []) [] rfl rfl

/-- C13, counterexample: the `type` attribute is empty, hence not `normal`, and has
no pending change; `resourceUserCreate` does not return the "only type `normal`
users can be created" error: it calls the API, creates the user and sets the ID. -/
theorem C13_counterexample :
    (exampleUser "" [] []).type ≠ ManagedDatabaseUserTypeNormal ∧
    (resourceUserCreate (exampleMeta { Name := "db1", Powered := true, Type_ := "mysql" })
        { exampleUser "" [] [] with id := "" } []).diags = [] ∧
    (resourceUserCreate (exampleMeta { Name := "db1", Powered := true, Type_ := "mysql" })
        { exampleUser "" [] [] with id := "" } []).calls
      = [Call.GetManagedDatabase { UUID := "svc" }, Call.WaitState "svc",
         Call.CreateManagedDatabaseUser
           { ServiceUUID := "svc", Username := "alice", Password := "secret-password",
             Authentication := "", PGAccessControl := none, RedisAccessControl := none,
             OpenSearchAccessControl := none },
         Call.GetManagedDatabase { UUID := "svc" },
         Call.GetManagedDatabaseUser { ServiceUUID := "svc", Username := "alice" }] ∧
    (resourceUserCreate (exampleMeta { Name := "db1", Powered := true, Type_ := "mysql" })
        { exampleUser "" [] [] with id := "" } []).d.id = "svc/alice" :=
  ⟨by decide, rfl, rfl, rfl⟩

/-- C13, as amended: for every resource state in which `type` has a pending change
and its value is not `normal`, `resourceUserCreate` returns the error "only type
`normal` users can be created", makes no call (no `GetManagedDatabase`, no
`CreateManagedDatabaseUser`) and leaves the resource data, the ID included, as it
was. -/
theorem C13_only_normal_users_created (m : Meta) (d : UserResource) (calls : List Call)
    (hchange : d.HasChange "type" = true)
    (htype : d.type ≠ ManagedDatabaseUserTypeNormal) :
    resourceUserCreate m d calls =
      { d := d, calls := calls,
        diags := FromErr (Error.message "only type `normal` users can be created") } := by
  simp [resourceUserCreate, hchange, htype]

/-- C13, witness: a user whose `type` changes to `primary`. -/
theorem C13_only_normal_users_created_witness :
    resourceUserCreate (exampleMeta { Name := "db1", Powered := true, Type_ := "mysql" })
        (exampleUser "primary" ["type"] []) []
      = { d := exampleUser "primary" ["type"] [], calls := [],
          diags := FromErr (Error.message "only type `normal` users can be created") } :=
  C13_only_normal_users_created
    (exampleMeta { Name := "db1", Powered := true, Type_ := "mysql" })
    (exampleUser "primary" ["type"] []) [] rfl (by decide)

theorem resourceUserRead_calls (m : Meta) (d : UserResource) (calls : List Call) :
    ∃ tail, (resourceUserRead m d calls).calls = calls ++ tail := by
  unfold resourceUserRead
  simp only
  split
  · exact ⟨_, rfl⟩
  · split
    · exact ⟨_, List.append_assoc _ _ _⟩
    · exact ⟨_, List.append_assoc _ _ _⟩

/-- C14, counterexample: only the block `pg_access_control` is populated, the
parent service is of type `redis`, and the create request built by
`resourceUserCreate` carries the Redis variant and no PostgreSQL variant. -/
theorem C14_counterexample :
    (exampleUser "" [] [{ allow_replication := true }]).pg_access_control ≠ [] ∧
    (exampleUser "" [] [{ allow_replication := true }]).redis_access_control = [] ∧
    (exampleUser "" [] [{ allow_replication := true }]).opensearch_access_control = [] ∧
    (resourceUserCreate_request (exampleUser "" [] [{ allow_replication := true }]) "svc"
        { Name := "db1", Powered := true, Type_ := "redis" }).PGAccessControl = none ∧
    (resourceUserCreate_request (exampleUser "" [] [{ allow_replication := true }]) "svc"
        { Name := "db1", Powered := true, Type_ := "redis" }).RedisAccessControl
      = some { Categories := [], Channels := [], Commands := [], Keys := [] } ∧
    Call.CreateManagedDatabaseUser
        (resourceUserCreate_request (exampleUser "" [] [{ allow_replication := true }]) "svc"
          { Name := "db1", Powered := true, Type_ := "redis" })
      ∈ (resourceUserCreate (exampleMeta { Name := "db1", Powered := true, Type_ := "redis" })
          (exampleUser "" [] [{ allow_replication := true }]) []).calls := by
  refine ⟨by decide, rfl, rfl, rfl, rfl, by decide⟩

/-- C14, as amended: the create request built by `resourceUserCreate` carries at
most one access-control variant, and the variant is selected by the type of the
parent service reported by the readiness wait, not by which block is populated:
the PostgreSQL variant for `pg`, the Redis variant for `redis`, the OpenSearch
variant for `opensearch`, and none for any other type; the other variants are
absent.  When the power check and the wait succeed, this request is the one sent
with `CreateManagedDatabaseUser`. -/
theorem C14_access_control_by_service_type (m : Meta) (d : UserResource) (calls : List Call)
    (sd0 sd : ManagedDatabase)
    (hguard : (d.HasChange "type" && d.type ≠ ManagedDatabaseUserTypeNormal) = false)
    (hget : m.client.GetManagedDatabase calls { UUID := d.service } = Except.ok sd0)
    (hon : sd0.Powered = true)
    (hwait : m.resourceUpCloudManagedDatabaseWaitState
      (calls ++ [Call.GetManagedDatabase { UUID := d.service }]) d.service = Except.ok sd) :
    Call.CreateManagedDatabaseUser (resourceUserCreate_request d d.service sd)
      ∈ (resourceUserCreate m d calls).calls ∧
    (sd.Type_ = ManagedDatabaseServiceTypePostgreSQL →
      (resourceUserCreate_request d d.service sd).PGAccessControl
          = some { AllowReplication := d.get_pg_allow_replication } ∧
        (resourceUserCreate_request d d.service sd).RedisAccessControl = none ∧
        (resourceUserCreate_request d d.service sd).OpenSearchAccessControl = none) ∧
    (sd.Type_ = ManagedDatabaseServiceTypeRedis →
      (resourceUserCreate_request d d.service sd).PGAccessControl = none ∧
        (resourceUserCreate_request d d.service sd).RedisAccessControl
          = some (redisAccessControlFromResourceData d) ∧
        (resourceUserCreate_request d d.service sd).OpenSearchAccessControl = none) ∧
    (sd.Type_ = ManagedDatabaseServiceTypeOpenSearch →
      (resourceUserCreate_request d d.service sd).PGAccessControl = none ∧
        (resourceUserCreate_request d d.service sd).RedisAccessControl = none ∧
        (resourceUserCreate_request d d.service sd).OpenSearchAccessControl
          = some (openSearchAccessControlFromResourceData d)) ∧
    (sd.Type_ ≠ ManagedDatabaseServiceTypePostgreSQL →
      sd.Type_ ≠ ManagedDatabaseServiceTypeRedis →
      sd.Type_ ≠ ManagedDatabaseServiceTypeOpenSearch →
      (resourceUserCreate_request d d.service sd).PGAccessControl = none ∧
        (resourceUserCreate_request d d.service sd).RedisAccessControl = none ∧
        (resourceUserCreate_request d d.service sd).OpenSearchAccessControl = none) := by
  refine ⟨?_, ?_, ?_, ?_, ?_⟩
  · simp only [resourceUserCreate, hguard, hget, hon, hwait]
    simp only [Bool.not_true, Bool.false_eq_true, if_false]
    split
    · simp
    · obtain ⟨tail, ht⟩ := resourceUserRead_calls m
        { d with id := buildManagedDatabaseSubResourceID d.service d.username }
        (calls ++ [Call.GetManagedDatabase { UUID := d.service }] ++
          [Call.WaitState d.service] ++
          [Call.CreateManagedDatabaseUser (resourceUserCreate_request d d.service sd)])
      rw [ht]
      simp
  · intro h
    obtain ⟨n, p, t⟩ := sd
    simp only at h
    subst h
    exact ⟨rfl, rfl, rfl⟩
  · intro h
    obtain ⟨n, p, t⟩ := sd
    simp only at h
    subst h
    exact ⟨rfl, rfl, rfl⟩
  · intro h
    obtain ⟨n, p, t⟩ := sd
    simp only at h
    subst h
    exact ⟨rfl, rfl, rfl⟩
  · intro h2 h3 h4
    unfold resourceUserCreate_request
    simp only [h2, h3, h4, if_false]
    split
    · split <;> exact ⟨rfl, rfl, rfl⟩
    · exact ⟨rfl, rfl, rfl⟩

/-- C14, witness: a PostgreSQL service and a populated `pg_access_control` block. -/
theorem C14_access_control_by_service_type_witness :
    (resourceUserCreate_request (exampleUser "" [] [{ allow_replication := true }]) "svc"
        { Name := "db1", Powered := true, Type_ := "pg" }).PGAccessControl
      = some { AllowReplication := true } ∧
    (resourceUserCreate_request (exampleUser "" [] [{ allow_replication := true }]) "svc"
        { Name := "db1", Powered := true, Type_ := "pg" }).RedisAccessControl = none ∧
    (resourceUserCreate_request (exampleUser "" [] [{ allow_replication := true }]) "svc"
        { Name := "db1", Powered := true, Type_ := "pg" }).OpenSearchAccessControl = none :=
  (C14_access_control_by_service_type
    (exampleMeta { Name := "db1", Powered := true, Type_ := "pg" })
    (exampleUser "" [] [{ allow_replication := true }]) []
    { Name := "db1", Powered := true, Type_ := "pg" }
    { Name := "db1", Powered := true, Type_ := "pg" } rfl rfl rfl rfl).2.1 rfl

theorem foldl_range_getElem? {α : Type} (S : Nat → List α → List α) (F : Nat → α → α)
    (hget : ∀ i acc j, (S i acc)[j]? = if i = j then (F i) <$> acc[j]? else acc[j]?)
    (acc : List α) (k j : Nat) :
    ((List.range k).foldl (fun acc i => S i acc) acc)[j]?
      = if j < k then (F j) <$> acc[j]? else acc[j]? := by
  induction k with
  | zero => simp
  | succ k ih =>
    rw [List.range_succ, List.foldl_append]
    simp only [List.foldl_cons, List.foldl_nil]
    rw [hget, ih]
    by_cases hjk : k = j
    · subst hjk
      simp
    · by_cases hlt : j < k
      · have : j < k + 1 := by omega
        simp [hjk, hlt, this]
      · have : ¬ j < k + 1 := by omega
        simp [hjk, hlt, this]

theorem foldl_range_replicate_eq {α : Type} (S : Nat → List α → List α) (F : Nat → α → α)
    (hget : ∀ i acc j, (S i acc)[j]? = if i = j then (F i) <$> acc[j]? else acc[j]?)
    (z : α) (v : List α) (hv : ∀ j, j < v.length → v[j]? = some (F j z)) :
    (List.range v.length).foldl (fun acc i => S i acc) (List.replicate v.length z) = v := by
  apply List.ext_getElem?
  intro j
  rw [foldl_range_getElem? S F hget, List.getElem?_replicate]
  by_cases hj : j < v.length
  · simp [hj, hv j hj]
  · simp [hj, List.getElem?_eq_none (Nat.le_of_not_lt hj)]

theorem copyStringsLoop_eq (v : List String) : copyStringsLoop v = v := by
  unfold copyStringsLoop
  apply foldl_range_replicate_eq (fun i acc => acc.set i (v.getD i ""))
    (fun i _ => v.getD i "")
  · intro i acc j
    rw [List.getElem?_set']
    rfl
  · intro j hj
    simp [List.getD, List.getElem?_eq_getElem hj]

theorem openSearchRules_eq (d : UserResource) :
    (openSearchAccessControlFromResourceData d).Rules
      = d.get_opensearch_rules.map (fun r => { Index := r.index, Permission := r.permission }) := by
  unfold openSearchAccessControlFromResourceData
  simp only
  have h := foldl_range_replicate_eq
    (fun i (acc : List ManagedDatabaseUserOpenSearchAccessControlRule) =>
      (acc.modify (fun r => { r with Index := d.get_opensearch_rule_index i }) i).modify
        (fun r => { r with Permission := d.get_opensearch_rule_permission i }) i)
    (fun i r => { Index := d.get_opensearch_rule_index i,
                  Permission := d.get_opensearch_rule_permission i })
    (by
      intro i acc j
      rw [List.getElem?_modify, List.getElem?_modify]
      by_cases hij : i = j
      · subst hij
        cases acc[i]? <;> simp
      · cases acc[j]? <;> simp [hij])
    { Index := "", Permission := "" }
    (d.get_opensearch_rules.map (fun r => { Index := r.index, Permission := r.permission }))
    (by
      intro j hj
      simp only [List.length_map] at hj
      simp [UserResource.get_opensearch_rule_index, UserResource.get_opensearch_rule_permission,
        List.getElem?_eq_getElem hj])
  simp only [List.length_map] at h
  exact h

/-- C15: the configuration that sets `redis_access_control` together with
`opensearch_access_control` passes the `ConflictsWith` validation of `schemaUser`
without any error, whereas setting `pg_access_control` together with either of
them is rejected: the schema does not enforce "at most one of the three". -/
theorem C15_redis_with_opensearch_not_rejected :
    schemaUser_validateConflicts ["redis_access_control", "opensearch_access_control"] = [] ∧
    schemaUser_validateConflicts ["pg_access_control", "redis_access_control"]
      = [Error.errorf "%q: conflicts with %s"
          [FmtArg.str "pg_access_control", FmtArg.str "redis_access_control"]] ∧
    schemaUser_validateConflicts ["pg_access_control", "opensearch_access_control"]
      = [Error.errorf "%q: conflicts with %s"
          [FmtArg.str "pg_access_control", FmtArg.str "opensearch_access_control"]] := by
  refine ⟨?_, ?_, ?_⟩ <;> decide

/-- C16: `redisAccessControlFromResourceData` and
`openSearchAccessControlFromResourceData` are field copies.  For every
configuration the returned Redis payload's `Categories`, `Channels`, `Commands`
and `Keys` equal the configured lists, and the returned OpenSearch payload has
one rule per configured rule, in order, rule `i` carrying the configured index
and permission of rule `i`. -/
theorem C16_access_control_field_copies (d : UserResource) :
    (redisAccessControlFromResourceData d).Categories = d.redis0.categories ∧
    (redisAccessControlFromResourceData d).Channels = d.redis0.channels ∧
    (redisAccessControlFromResourceData d).Commands = d.redis0.commands ∧
    (redisAccessControlFromResourceData d).Keys = d.redis0.keys ∧
    (openSearchAccessControlFromResourceData d).Rules.length = d.get_opensearch_rules.length ∧
    ∀ (i : Nat) (r : OpenSearchRuleBlock), d.get_opensearch_rules[i]? = some r →
      (openSearchAccessControlFromResourceData d).Rules[i]?
        = some { Index := r.index, Permission := r.permission } := by
  refine ⟨copyStringsLoop_eq _, copyStringsLoop_eq _, copyStringsLoop_eq _,
    copyStringsLoop_eq _, ?_, ?_⟩
  · rw [openSearchRules_eq, List.length_map]
  · intro i r hr
    rw [openSearchRules_eq, List.getElem?_map, hr]
    rfl

/-- C16, witness: two OpenSearch rules. -/
theorem C16_access_control_field_copies_witness :
    (openSearchAccessControlFromResourceData
        { exampleUser "" [] [] with
          opensearch_access_control :=
            [{ rules := [{ index := "logs-*", permission := "read" },
                         { index := "metrics", permission := "write" }] }] }).Rules[1]?
      = some { Index := "metrics", Permission := "write" } :=
  (C16_access_control_field_copies
    { exampleUser "" [] [] with
      opensearch_access_control :=
        [{ rules := [{ index := "logs-*", permission := "read" },
                     { index := "metrics", permission := "write" }] }] }).2.2.2.2.2
    1 { index := "metrics", permission := "write" } rfl

/-- C17: for every API problem and object name,
`diagBindingRemovedWarningFromUpcloudProblem` returns a diagnostic of severity
`Warning` (not `Error`), whose summary is the problem's title and whose detail is
the fixed "Binding to an existing remote object '<name>' will be removed from the
state ..." message with the given name inserted. -/
theorem C17_binding_removed_warning (err : Problem) (name : String) :
    (diagBindingRemovedWarningFromUpcloudProblem err name).Severity = Severity.Warning ∧
    (diagBindingRemovedWarningFromUpcloudProblem err name).Severity ≠ Severity.Error ∧
    (diagBindingRemovedWarningFromUpcloudProblem err name).Summary = Text.literal err.Title ∧
    (diagBindingRemovedWarningFromUpcloudProblem err name).Detail =
      "Binding to an existing remote object '" ++ name ++
        "' will be removed from the state. Next plan will include action to re-create the object if you choose to keep it in config." := by
  refine ⟨rfl, ?_, rfl, rfl⟩
  show Severity.Warning ≠ Severity.Error
  decide

/-- C18: the `http_redirect` scheme validator returns no diagnostics if and only
if the value is exactly "http" or "https"; for every other string (matching is
case-sensitive) it returns one diagnostic of severity `Error` whose summary is the
error "expected <key> to be one of ["http" "https"], got <value>". -/
theorem C18_scheme_validator (v key : String) :
    (frontendRuleActionsSchema_scheme_ValidateDiagFunc v key = [] ↔
      (v = "http" ∨ v = "https")) ∧
    (¬ (v = "http" ∨ v = "https") →
      frontendRuleActionsSchema_scheme_ValidateDiagFunc v key =
        [{ Severity := Severity.Error,
           Summary := Text.errorText (Error.errorf "expected %s to be one of %q, got %s"
             [FmtArg.str key, FmtArg.strs ["http", "https"], FmtArg.str v]),
           Detail := "" }]) := by
  have hloop : StringInSlice_loop false v
      [LoadBalancerActionHTTPRedirectSchemeHTTP, LoadBalancerActionHTTPRedirectSchemeHTTPS]
      = decide (v = "http" ∨ v = "https") := by
    simp only [StringInSlice_loop, LoadBalancerActionHTTPRedirectSchemeHTTP,
      LoadBalancerActionHTTPRedirectSchemeHTTPS]
    by_cases h1 : v = "http" <;> by_cases h2 : v = "https" <;> simp [h1, h2]
  unfold frontendRuleActionsSchema_scheme_ValidateDiagFunc ToDiagFunc StringInSlice
  rw [hloop]
  by_cases h : v = "http" ∨ v = "https"
  · simp [h]
  · simp only [h, decide_False, Bool.false_eq_true, if_false, List.map_nil, List.nil_append,
      List.map_cons, not_false_eq_true, true_implies, false_iff]
    exact ⟨by simp, rfl⟩

/-- C18, witness: the values "invalid" and "HTTPS" are rejected. -/
theorem C18_scheme_validator_witness :
    frontendRuleActionsSchema_scheme_ValidateDiagFunc "invalid" "scheme" =
        [{ Severity := Severity.Error,
           Summary := Text.errorText (Error.errorf "expected %s to be one of %q, got %s"
             [FmtArg.str "scheme", FmtArg.strs ["http", "https"], FmtArg.str "invalid"]),
           Detail := "" }] ∧
    frontendRuleActionsSchema_scheme_ValidateDiagFunc "HTTPS" "scheme" =
        [{ Severity := Severity.Error,
           Summary := Text.errorText (Error.errorf "expected %s to be one of %q, got %s"
             [FmtArg.str "scheme", FmtArg.strs ["http", "https"], FmtArg.str "HTTPS"]),
           Detail := "" }] :=
  ⟨(C18_scheme_validator "invalid" "scheme").2 (by decide),
   (C18_scheme_validator "HTTPS" "scheme").2 (by decide)⟩

/-- C19: the `family` validator of `ip_network` returns no diagnostics if and only
if the value equals the IPv4 or the IPv6 family constant; for every other string
it returns exactly one diagnostic, of severity `Error`, with summary "'family' has
incorrect value". -/
theorem C19_family_validator (v : String) :
    (ResourceNetwork_family_ValidateDiagFunc v = [] ↔
      (v = IPAddressFamilyIPv4 ∨ v = IPAddressFamilyIPv6)) ∧
    (¬ (v = IPAddressFamilyIPv4 ∨ v = IPAddressFamilyIPv6) →
      ∃ diagnostic : Diagnostic,
        ResourceNetwork_family_ValidateDiagFunc v = [diagnostic] ∧
        diagnostic.Severity = Severity.Error ∧
        diagnostic.Summary = Text.literal "'family' has incorrect value") := by
  unfold ResourceNetwork_family_ValidateDiagFunc
  by_cases h : v = IPAddressFamilyIPv4 ∨ v = IPAddressFamilyIPv6
  · simp [h]
  · rw [if_neg h]
    exact ⟨by simp [h], fun _ => ⟨_, rfl, rfl, rfl⟩⟩

/-- C19, witness: the value "ipv4" in lower case is rejected. -/
theorem C19_family_validator_witness :
    ∃ diagnostic : Diagnostic,
      ResourceNetwork_family_ValidateDiagFunc "ipv4" = [diagnostic] ∧
      diagnostic.Severity = Severity.Error ∧
      diagnostic.Summary = Text.literal "'family' has incorrect value" :=
  (C19_family_validator "ipv4").2 (by decide)

/-- C20: deleting a primary user is ignored.  For every resource whose type is
`primary`: if `username` has no pending change, `resourceUserDelete` returns no
diagnostics and makes no call at all (no `GetManagedDatabase`, no
`DeleteManagedDatabaseUser`); and it returns the error "primary username cannot be
changed" exactly when `username` has a pending change, again without any call. -/
theorem C20_primary_delete_ignored (m : Meta) (d : UserResource) (calls : List Call)
    (htype : d.type = ManagedDatabaseUserTypePrimary) :
    (d.HasChange "username" = false →
      resourceUserDelete m d calls = { d := d, calls := calls, diags := [] }) ∧
    ((resourceUserDelete m d calls).diags =
        FromErr (Error.errorf "primary username cannot be changed %q" [FmtArg.str d.id])
      ↔ d.HasChange "username" = true) ∧
    (resourceUserDelete m d calls).calls = calls := by
  cases hc : d.HasChange "username" <;> simp [resourceUserDelete, htype, hc, FromErr]

/-- C20, witness: the primary user `alice` without pending changes. -/
theorem C20_primary_delete_ignored_witness :
    resourceUserDelete (exampleMeta { Name := "db1", Powered := true, Type_ := "pg" })
        (exampleUser "primary" [] []) []
      = { d := exampleUser "primary" [] [], calls := [], diags := [] } :=
  (C20_primary_delete_ignored (exampleMeta { Name := "db1", Powered := true, Type_ := "pg" })
    (exampleUser "primary" [] []) [] rfl).1 rfl

theorem setFrontendRuleActionsLoop_byKind (l : List LoadBalancerAction) (acc : ActionsMap)
    (h : ∀ a ∈ l, a.supportedType = true ∧ a.payloadPresent = true) :
    setFrontendRuleActionsLoop acc l =
      Result.ok
        { use_backend := acc.use_backend ++ l.filterMap useBackendOf,
          http_redirect := acc.http_redirect ++ l.filterMap httpRedirectOf,
          http_return := acc.http_return ++ l.filterMap httpReturnOf,
          tcp_reject := acc.tcp_reject ++ l.filterMap tcpRejectOf,
          set_forwarded_headers :=
            acc.set_forwarded_headers ++ l.filterMap setForwardedHeadersOf } := by
  induction l generalizing acc with
  | nil => simp [setFrontendRuleActionsLoop]
  | cons a rest ih =>
    obtain ⟨hs, hp⟩ := h a (List.mem_cons_self _ _)
    have ih2 := fun acc => ih acc (fun x hx => h x (List.mem_cons_of_mem _ hx))
    obtain ⟨t, ub, tr, rt, rd, sf⟩ := a
    simp only [LoadBalancerAction.supportedType, Bool.or_eq_true, decide_eq_true_eq] at hs
    rcases hs with (((hs | hs) | hs) | hs) | hs <;> subst hs
    · cases ub with
      | none => simp [LoadBalancerAction.payloadPresent] at hp
      | some p =>
        simp [setFrontendRuleActionsLoop, setFrontendRuleActionsStep, ih2, useBackendOf,
          httpRedirectOf, httpReturnOf, tcpRejectOf, setForwardedHeadersOf,
          LoadBalancerActionTypeUseBackend, LoadBalancerActionTypeHTTPRedirect,
          LoadBalancerActionTypeHTTPReturn, LoadBalancerActionTypeTCPReject,
          LoadBalancerActionTypeSetForwardedHeaders]
    · cases rd with
      | none =>
        simp [LoadBalancerAction.payloadPresent, LoadBalancerActionTypeUseBackend,
          LoadBalancerActionTypeHTTPRedirect] at hp
      | some p =>
        simp [setFrontendRuleActionsLoop, setFrontendRuleActionsStep, ih2, useBackendOf,
          httpRedirectOf, httpReturnOf, tcpRejectOf, setForwardedHeadersOf,
          LoadBalancerActionTypeUseBackend, LoadBalancerActionTypeHTTPRedirect,
          LoadBalancerActionTypeHTTPReturn, LoadBalancerActionTypeTCPReject,
          LoadBalancerActionTypeSetForwardedHeaders]
    · cases rt with
      | none =>
        simp [LoadBalancerAction.payloadPresent, LoadBalancerActionTypeUseBackend,
          LoadBalancerActionTypeHTTPRedirect, LoadBalancerActionTypeHTTPReturn] at hp
      | some p =>
        simp [setFrontendRuleActionsLoop, setFrontendRuleActionsStep, ih2, useBackendOf,
          httpRedirectOf, httpReturnOf, tcpRejectOf, setForwardedHeadersOf,
          LoadBalancerActionTypeUseBackend, LoadBalancerActionTypeHTTPRedirect,
          LoadBalancerActionTypeHTTPReturn, LoadBalancerActionTypeTCPReject,
          LoadBalancerActionTypeSetForwardedHeaders]
    · simp [setFrontendRuleActionsLoop, setFrontendRuleActionsStep, ih2, useBackendOf,
        httpRedirectOf, httpReturnOf, tcpRejectOf, setForwardedHeadersOf,
        LoadBalancerActionTypeUseBackend, LoadBalancerActionTypeHTTPRedirect,
        LoadBalancerActionTypeHTTPReturn, LoadBalancerActionTypeTCPReject,
        LoadBalancerActionTypeSetForwardedHeaders]
    · simp [setFrontendRuleActionsLoop, setFrontendRuleActionsStep, ih2, useBackendOf,
        httpRedirectOf, httpReturnOf, tcpRejectOf, setForwardedHeadersOf,
        LoadBalancerActionTypeUseBackend, LoadBalancerActionTypeHTTPRedirect,
        LoadBalancerActionTypeHTTPReturn, LoadBalancerActionTypeTCPReject,
        LoadBalancerActionTypeSetForwardedHeaders]

theorem setFrontendRuleActionsLoop_unsupported (pre suf : List LoadBalancerAction)
    (a : LoadBalancerAction) (acc : ActionsMap)
    (hpre : ∀ x ∈ pre, x.supportedType = true ∧ x.payloadPresent = true)
    (ha : a.supportedType = false) :
    setFrontendRuleActionsLoop acc (pre ++ a :: suf)
      = Result.error (Error.unsupportedActionType a) := by
  induction pre generalizing acc with
  | nil =>
    simp only [LoadBalancerAction.supportedType, Bool.or_eq_false_iff,
      decide_eq_false_iff_not] at ha
    obtain ⟨⟨⟨⟨h1, h2⟩, h3⟩, h4⟩, h5⟩ := ha
    simp [setFrontendRuleActionsLoop, setFrontendRuleActionsStep, h1, h2, h3, h4, h5]
  | cons x xs ih =>
    have hx := setFrontendRuleActionsLoop_byKind [x] acc (by
      intro y hy
      rw [List.mem_singleton] at hy
      subst hy
      exact hpre y (List.mem_cons_self _ _))
    have ih2 := fun acc => ih acc (fun y hy => hpre y (List.mem_cons_of_mem _ hy))
    simp only [setFrontendRuleActionsLoop] at hx
    simp only [List.cons_append, setFrontendRuleActionsLoop]
    split at hx
    · exact ih2 _
    · cases hx
    · cases hx

theorem flatMap_redirectActions_of_not_both (l : List (Option HTTPRedirectBlock))
    (h : l.any redirectBoth = false) :
    l.flatMap redirectActions =
      l.flatMap (fun e =>
        match e with
        | some b =>
          if b.location ≠ "" then [NewLoadBalancerHTTPRedirectAction b.location]
          else if b.scheme ≠ "" then [NewLoadBalancerHTTPRedirectSchemeAction b.scheme]
          else []
        | none => []) ∧
    (l.flatMap redirectActions).length =
      l.countP (fun e =>
        match e with
        | some b =>
          decide ((b.location ≠ "" ∧ b.scheme = "") ∨ (b.location = "" ∧ b.scheme ≠ ""))
        | none => false) := by
  induction l with
  | nil => simp
  | cons e es ih =>
    simp only [List.any_cons, Bool.or_eq_false_iff] at h
    obtain ⟨ih1, ih2⟩ := ih h.2
    have he := h.1
    simp only [List.flatMap_cons, List.length_append, List.countP_cons]
    rw [← ih1, ih2]
    cases e with
    | none => simp [redirectActions]
    | some b =>
      simp only [redirectBoth, Bool.and_eq_false_iff, decide_eq_false_iff_not, ne_eq,
        not_not] at he
      by_cases hl : b.location = "" <;> by_cases hs : b.scheme = "" <;>
        simp_all [redirectActions, Nat.add_comm]

/-- C21: full emission order.  Whenever `loadBalancerActionsFromResourceData`
returns a list without error, the list is the concatenation, in this order, of the
actions of the `set_forwarded_headers`, `use_backend`, `http_return`,
`http_redirect` and `tcp_reject` blocks; within each kind the actions follow the
order of the blocks, and `backend_name`, `status`, `content_type`, `payload` and
the `location` or `scheme` of a block are copied unchanged into its action. -/
theorem C21_emission_order (d : ResourceData) (a : List LoadBalancerAction)
    (h : loadBalancerActionsFromResourceData d = Except.ok a) :
    a =
      d.actions0.set_forwarded_headers.map (fun _ => NewLoadBalancerSetForwardedHeadersAction) ++
      (d.actions0.use_backend.map (fun v => NewLoadBalancerUseBackendAction v.backend_name) ++
      (d.actions0.http_return.map
          (fun v => NewLoadBalancerHTTPReturnAction v.status v.content_type v.payload) ++
      (d.actions0.http_redirect.flatMap (fun e =>
          match e with
          | some b =>
            if b.location ≠ "" then [NewLoadBalancerHTTPRedirectAction b.location]
            else if b.scheme ≠ "" then [NewLoadBalancerHTTPRedirectSchemeAction b.scheme]
            else []
          | none => []) ++
       d.actions0.tcp_reject.map (fun _ => NewLoadBalancerTCPRejectAction)))) := by
  rw [loadBalancerActionsFromResourceData_eq] at h
  split at h
  · cases h
  · rename_i hboth
    injection h with h
    rw [← h, emittedActions,
      (flatMap_redirectActions_of_not_both _ (by simpa using hboth)).1]

/-- C21, witness: the actions of the acceptance test. -/
theorem C21_emission_order_witness :
    [NewLoadBalancerSetForwardedHeadersAction, NewLoadBalancerUseBackendAction "lb-be-1-test",
      NewLoadBalancerHTTPReturnAction 404 "text/plain" "UmVzb3VyY2Ugbm90IGZvdW5kIQ==",
      NewLoadBalancerHTTPRedirectAction "/app", NewLoadBalancerHTTPRedirectSchemeAction "https",
      NewLoadBalancerTCPRejectAction] =
      C8_input.actions0.set_forwarded_headers.map
          (fun _ => NewLoadBalancerSetForwardedHeadersAction) ++
      (C8_input.actions0.use_backend.map
          (fun v => NewLoadBalancerUseBackendAction v.backend_name) ++
      (C8_input.actions0.http_return.map
          (fun v => NewLoadBalancerHTTPReturnAction v.status v.content_type v.payload) ++
      (C8_input.actions0.http_redirect.flatMap (fun e =>
          match e with
          | some b =>
            if b.location ≠ "" then [NewLoadBalancerHTTPRedirectAction b.location]
            else if b.scheme ≠ "" then [NewLoadBalancerHTTPRedirectSchemeAction b.scheme]
            else []
          | none => []) ++
       C8_input.actions0.tcp_reject.map (fun _ => NewLoadBalancerTCPRejectAction)))) :=
  C21_emission_order C8_input _ rfl

/-- C22: action count.  Without an `actions` block
`loadBalancerActionsFromResourceData` returns the empty list and no error.
Whenever it returns a list without error, the number of actions is the number of
`set_forwarded_headers` blocks plus the number of `use_backend`, `http_return`
and `tcp_reject` blocks plus the number of `http_redirect` blocks with exactly one
of `location`, `scheme` non-empty: an `http_redirect` block with neither is
dropped, and the `active` flag of a block has no influence. -/
theorem C22_action_count (d : ResourceData) :
    (d.actions = [] → loadBalancerActionsFromResourceData d = Except.ok []) ∧
    (∀ a, loadBalancerActionsFromResourceData d = Except.ok a →
      a.length =
        d.actions0.set_forwarded_headers.length + d.actions0.use_backend.length +
          d.actions0.http_return.length + d.actions0.tcp_reject.length +
          d.actions0.http_redirect.countP (fun e =>
            match e with
            | some b =>
              decide ((b.location ≠ "" ∧ b.scheme = "") ∨ (b.location = "" ∧ b.scheme ≠ ""))
            | none => false)) := by
  constructor
  · intro h
    rw [loadBalancerActionsFromResourceData_eq]
    simp [ResourceData.actions0, h, ActionsBlock.empty, emittedActions]
  · intro a h
    rw [loadBalancerActionsFromResourceData_eq] at h
    split at h
    · cases h
    · rename_i hboth
      injection h with h
      have hlen := (flatMap_redirectActions_of_not_both _ (by simpa using hboth)).2
      rw [← h]
      simp only [emittedActions, List.length_append, List.length_map, hlen]
      omega

/-- C22, witness: blocks with `active = false` emit their action, and the two
`http_redirect` blocks without attributes are dropped. -/
theorem C22_action_count_witness :
    loadBalancerActionsFromResourceData C22_input =
      Except.ok [NewLoadBalancerSetForwardedHeadersAction,
        NewLoadBalancerHTTPRedirectAction "/app", NewLoadBalancerTCPRejectAction] ∧
    [NewLoadBalancerSetForwardedHeadersAction,
        NewLoadBalancerHTTPRedirectAction "/app", NewLoadBalancerTCPRejectAction].length =
      C22_input.actions0.set_forwarded_headers.length + C22_input.actions0.use_backend.length +
        C22_input.actions0.http_return.length + C22_input.actions0.tcp_reject.length +
        C22_input.actions0.http_redirect.countP (fun e =>
          match e with
          | some b =>
            decide ((b.location ≠ "" ∧ b.scheme = "") ∨ (b.location = "" ∧ b.scheme ≠ ""))
          | none => false) :=
  ⟨rfl, (C22_action_count C22_input).2 _ rfl⟩

theorem isSupportedAPIAction_cases (a : LoadBalancerAction)
    (h : a.isSupportedAPIAction = true) (hone : a.redirectExactlyOne = true) :
    (∃ n, a = NewLoadBalancerUseBackendAction n) ∨
    (∃ s c p, a = NewLoadBalancerHTTPReturnAction s c p) ∨
    (∃ loc, loc ≠ "" ∧ a = NewLoadBalancerHTTPRedirectAction loc) ∨
    (∃ s, s ≠ "" ∧ a = NewLoadBalancerHTTPRedirectSchemeAction s) ∨
    a = NewLoadBalancerTCPRejectAction ∨ a = NewLoadBalancerSetForwardedHeadersAction := by
  obtain ⟨t, ub, tr, rt, rd, sf⟩ := a
  unfold LoadBalancerAction.isSupportedAPIAction at h
  unfold LoadBalancerAction.redirectExactlyOne at hone
  simp only at h hone
  by_cases h1 : t = LoadBalancerActionTypeUseBackend
  · subst h1
    cases ub <;> cases tr <;> cases rt <;> cases rd <;> cases sf <;> simp at h
    exact Or.inl ⟨_, rfl⟩
  · rw [if_neg h1] at h
    by_cases h2 : t = LoadBalancerActionTypeHTTPRedirect
    · subst h2
      cases ub <;> cases tr <;> cases rt <;> cases rd <;> cases sf <;> simp at h
      rename_i p
      obtain ⟨loc, sch⟩ := p
      simp only [if_true] at hone
      by_cases hl : loc = "" <;> by_cases hs : sch = "" <;> simp [hl, hs] at hone
      · subst hl
        exact Or.inr (Or.inr (Or.inr (Or.inl ⟨sch, hs, rfl⟩)))
      · subst hs
        exact Or.inr (Or.inr (Or.inl ⟨loc, hl, rfl⟩))
    · rw [if_neg h2] at h
      by_cases h3 : t = LoadBalancerActionTypeHTTPReturn
      · subst h3
        cases ub <;> cases tr <;> cases rt <;> cases rd <;> cases sf <;> simp at h
        exact Or.inr (Or.inl ⟨_, _, _, rfl⟩)
      · rw [if_neg h3] at h
        by_cases h4 : t = LoadBalancerActionTypeTCPReject
        · subst h4
          cases ub <;> cases tr <;> cases rt <;> cases rd <;> cases sf <;> simp at h
          exact Or.inr (Or.inr (Or.inr (Or.inr (Or.inl rfl))))
        · rw [if_neg h4] at h
          by_cases h5 : t = LoadBalancerActionTypeSetForwardedHeaders
          · subst h5
            cases ub <;> cases tr <;> cases rt <;> cases rd <;> cases sf <;> simp at h
            exact Or.inr (Or.inr (Or.inr (Or.inr (Or.inr rfl))))
          · rw [if_neg h5] at h
            cases h

theorem supported_of_isSupportedAPIAction (a : LoadBalancerAction)
    (h : a.isSupportedAPIAction = true) :
    a.supportedType = true ∧ a.payloadPresent = true := by
  obtain ⟨t, ub, tr, rt, rd, sf⟩ := a
  unfold LoadBalancerAction.isSupportedAPIAction at h
  unfold LoadBalancerAction.supportedType LoadBalancerAction.payloadPresent
  simp only at h ⊢
  by_cases h1 : t = LoadBalancerActionTypeUseBackend
  · simp_all
  · by_cases h2 : t = LoadBalancerActionTypeHTTPRedirect
    · simp_all
    · by_cases h3 : t = LoadBalancerActionTypeHTTPReturn
      · simp_all
      · by_cases h4 : t = LoadBalancerActionTypeTCPReject
        · simp_all
        · by_cases h5 : t = LoadBalancerActionTypeSetForwardedHeaders
          · simp_all
          · simp_all

theorem emittedActions_actionsBlockByKind (l : List LoadBalancerAction)
    (hapi : ∀ a ∈ l, a.isSupportedAPIAction = true)
    (hone : ∀ a ∈ l, a.redirectExactlyOne = true) :
    (l.filterMap setForwardedHeadersOf).map (fun _ => NewLoadBalancerSetForwardedHeadersAction)
        = l.filter (fun a => a.Type_ = LoadBalancerActionTypeSetForwardedHeaders) ∧
    (l.filterMap useBackendOf).map (fun v => NewLoadBalancerUseBackendAction v.backend_name)
        = l.filter (fun a => a.Type_ = LoadBalancerActionTypeUseBackend) ∧
    (l.filterMap httpReturnOf).map
        (fun v => NewLoadBalancerHTTPReturnAction v.status v.content_type v.payload)
        = l.filter (fun a => a.Type_ = LoadBalancerActionTypeHTTPReturn) ∧
    (l.filterMap httpRedirectOf).flatMap redirectActions
        = l.filter (fun a => a.Type_ = LoadBalancerActionTypeHTTPRedirect) ∧
    (l.filterMap tcpRejectOf).map (fun _ => NewLoadBalancerTCPRejectAction)
        = l.filter (fun a => a.Type_ = LoadBalancerActionTypeTCPReject) ∧
    (l.filterMap httpRedirectOf).any redirectBoth = false := by
  induction l with
  | nil => simp
  | cons a rest ih =>
    obtain ⟨i1, i2, i3, i4, i5, i6⟩ := ih (fun x hx => hapi x (List.mem_cons_of_mem _ hx))
      (fun x hx => hone x (List.mem_cons_of_mem _ hx))
    rcases isSupportedAPIAction_cases a (hapi a (List.mem_cons_self _ _))
        (hone a (List.mem_cons_self _ _)) with
      ⟨n, rfl⟩ | ⟨s, c, p, rfl⟩ | ⟨loc, hloc, rfl⟩ | ⟨s, hs, rfl⟩ | rfl | rfl <;>
    simp_all [List.filterMap_cons, List.filter_cons, useBackendOf, httpRedirectOf, httpReturnOf,
      tcpRejectOf, setForwardedHeadersOf, redirectActions, redirectBoth,
      NewLoadBalancerUseBackendAction, NewLoadBalancerHTTPReturnAction,
      NewLoadBalancerHTTPRedirectAction, NewLoadBalancerHTTPRedirectSchemeAction,
      NewLoadBalancerTCPRejectAction, NewLoadBalancerSetForwardedHeadersAction,
      LoadBalancerAction.empty, LoadBalancerActionTypeUseBackend,
      LoadBalancerActionTypeHTTPRedirect, LoadBalancerActionTypeHTTPReturn,
      LoadBalancerActionTypeTCPReject, LoadBalancerActionTypeSetForwardedHeaders]

theorem actionsStateActions_eq (d0 : ResourceData) (l : List LoadBalancerAction)
    (hapi : ∀ a ∈ l, a.isSupportedAPIAction = true)
    (hone : ∀ a ∈ l, a.redirectExactlyOne = true) :
    actionsStateActions d0 l = some (kindOrder l) := by
  obtain ⟨e1, e2, e3, e4, e5, e6⟩ := emittedActions_actionsBlockByKind l hapi hone
  have hemit : emittedActions (actionsBlockByKind l) = kindOrder l := by
    simp only [emittedActions, actionsBlockByKind, kindOrder, e1, e2, e3, e4, e5]
  have hloop := setFrontendRuleActionsLoop_byKind l ActionsBlock.empty
    (fun a ha => supported_of_isSupportedAPIAction a (hapi a ha))
  have hloop2 : setFrontendRuleActionsLoop ActionsBlock.empty l
      = Result.ok (actionsBlockByKind l) := by
    rw [hloop]
    simp [ActionsBlock.empty, actionsBlockByKind]
  unfold actionsStateActions setFrontendRuleActionsResourceData
  by_cases hlen : l.length = 0
  · have hnil : l = [] := List.length_eq_zero.1 hlen
    subst hnil
    simp [loadBalancerActionsFromResourceData_eq, ResourceData.actions0, ActionsBlock.empty,
      emittedActions, kindOrder]
  · simp only [hlen, if_false, hloop2]
    rw [loadBalancerActionsFromResourceData_eq]
    simp only [ResourceData.actions0]
    have hb : (actionsBlockByKind l).http_redirect.any redirectBoth = false := e6
    rw [hb]
    simp [hemit]

theorem count_filter_type (l : List LoadBalancerAction) (t : String) (a : LoadBalancerAction) :
    (l.filter (fun x => x.Type_ = t)).count a = if a.Type_ = t then l.count a else 0 := by
  by_cases h : a.Type_ = t
  · rw [if_pos h]
    exact List.count_filter (by simpa using h)
  · rw [if_neg h]
    apply List.count_eq_zero_of_not_mem
    intro hm
    rw [List.mem_filter] at hm
    exact h (by simpa using hm.2)

theorem kindOrder_perm (l : List LoadBalancerAction)
    (hs : ∀ a ∈ l, a.supportedType = true) : (kindOrder l).Perm l := by
  rw [List.perm_iff_count]
  intro a
  simp only [kindOrder, List.count_append, count_filter_type]
  by_cases hmem : a ∈ l
  · have h := hs a hmem
    simp only [LoadBalancerAction.supportedType, Bool.or_eq_true, decide_eq_true_eq] at h
    rcases h with (((h | h) | h) | h) | h <;> rw [h] <;>
      simp [LoadBalancerActionTypeUseBackend, LoadBalancerActionTypeHTTPRedirect,
        LoadBalancerActionTypeHTTPReturn, LoadBalancerActionTypeTCPReject,
        LoadBalancerActionTypeSetForwardedHeaders]
  · rw [List.count_eq_zero_of_not_mem hmem]
    split <;> split <;> split <;> split <;> split <;> rfl

theorem filter_filter_type (l : List LoadBalancerAction) (s t : String) :
    (l.filter (fun a => a.Type_ = t)).filter (fun a => a.Type_ = s)
      = if s = t then l.filter (fun a => a.Type_ = s) else [] := by
  rw [List.filter_filter]
  by_cases h : s = t
  · subst h
    simp
  · rw [if_neg h, List.filter_eq_nil_iff]
    intro a _
    simp only [Bool.and_eq_true, decide_eq_true_eq, not_and]
    intro h1 h2
    exact h (h1.symm.trans h2)

theorem kindOrder_kindOrder (l : List LoadBalancerAction) :
    kindOrder (kindOrder l) = kindOrder l := by
  have key : ∀ s : String, s ∈ [LoadBalancerActionTypeSetForwardedHeaders,
      LoadBalancerActionTypeUseBackend, LoadBalancerActionTypeHTTPReturn,
      LoadBalancerActionTypeHTTPRedirect, LoadBalancerActionTypeTCPReject] →
      (kindOrder l).filter (fun a => a.Type_ = s) = l.filter (fun a => a.Type_ = s) := by
    intro s hs
    simp only [kindOrder, List.filter_append, filter_filter_type]
    simp only [List.mem_cons, List.mem_singleton, List.not_mem_nil, or_false] at hs
    rcases hs with h | h | h | h | h <;> subst h <;>
      simp [LoadBalancerActionTypeUseBackend, LoadBalancerActionTypeHTTPRedirect,
        LoadBalancerActionTypeHTTPReturn, LoadBalancerActionTypeTCPReject,
        LoadBalancerActionTypeSetForwardedHeaders]
  have hgen : ∀ m : List LoadBalancerAction,
      (∀ s : String, s ∈ [LoadBalancerActionTypeSetForwardedHeaders,
        LoadBalancerActionTypeUseBackend, LoadBalancerActionTypeHTTPReturn,
        LoadBalancerActionTypeHTTPRedirect, LoadBalancerActionTypeTCPReject] →
        m.filter (fun a => a.Type_ = s) = l.filter (fun a => a.Type_ = s)) →
      kindOrder m = kindOrder l := by
    intro m hm
    simp only [kindOrder]
    rw [hm _ (by simp), hm _ (by simp), hm _ (by simp), hm _ (by simp), hm _ (by simp)]
  exact hgen _ key

theorem filter_type_eq_nil_of_rank (xs : List LoadBalancerAction) (t : String) (r : Nat)
    (ht : kindRank (LoadBalancerAction.empty t) < r) (hle : ∀ y ∈ xs, r ≤ kindRank y) :
    xs.filter (fun a => a.Type_ = t) = [] := by
  rw [List.filter_eq_nil_iff]
  intro y hy hty
  have h1 := hle y hy
  have h2 : kindRank y = kindRank (LoadBalancerAction.empty t) := by
    simp only [decide_eq_true_eq] at hty
    simp [kindRank, LoadBalancerAction.empty, hty]
  omega

theorem kindOrder_of_inKindOrder (l : List LoadBalancerAction)
    (hs : ∀ a ∈ l, a.supportedType = true) (ho : inKindOrder l) : kindOrder l = l := by
  induction l with
  | nil => rfl
  | cons x xs ih =>
    have hsx := hs x (List.mem_cons_self _ _)
    rw [inKindOrder, List.pairwise_cons] at ho
    obtain ⟨hle, hxs⟩ := ho
    have ih2 : kindOrder xs = xs := ih (fun a ha => hs a (List.mem_cons_of_mem _ ha)) hxs
    have hlow := fun t ht => filter_type_eq_nil_of_rank xs t (kindRank x) ht hle
    simp only [LoadBalancerAction.supportedType, Bool.or_eq_true, decide_eq_true_eq] at hsx
    unfold kindOrder at ih2 ⊢
    rcases hsx with (((hx | hx) | hx) | hx) | hx
    · have r : kindRank x = 1 := by
        simp [kindRank, hx, LoadBalancerActionTypeUseBackend,
          LoadBalancerActionTypeSetForwardedHeaders]
      rw [r] at hlow
      have l0 := hlow LoadBalancerActionTypeSetForwardedHeaders (by decide)
      rw [l0] at ih2
      simp only [List.filter_cons, hx, l0]
      simp only [List.nil_append] at ih2
      simp [LoadBalancerActionTypeUseBackend, LoadBalancerActionTypeHTTPRedirect,
        LoadBalancerActionTypeHTTPReturn, LoadBalancerActionTypeTCPReject,
        LoadBalancerActionTypeSetForwardedHeaders] at ih2 ⊢
      exact ih2
    · have r : kindRank x = 3 := by
        simp [kindRank, hx, LoadBalancerActionTypeUseBackend, LoadBalancerActionTypeHTTPReturn,
          LoadBalancerActionTypeHTTPRedirect, LoadBalancerActionTypeSetForwardedHeaders]
      rw [r] at hlow
      have l0 := hlow LoadBalancerActionTypeSetForwardedHeaders (by decide)
      have l1 := hlow LoadBalancerActionTypeUseBackend (by decide)
      have l2 := hlow LoadBalancerActionTypeHTTPReturn (by decide)
      rw [l0, l1, l2] at ih2
      simp only [List.filter_cons, hx, l0, l1, l2]
      simp only [List.nil_append] at ih2
      simp [LoadBalancerActionTypeUseBackend, LoadBalancerActionTypeHTTPRedirect,
        LoadBalancerActionTypeHTTPReturn, LoadBalancerActionTypeTCPReject,
        LoadBalancerActionTypeSetForwardedHeaders] at ih2 ⊢
      exact ih2
    · have r : kindRank x = 2 := by
        simp [kindRank, hx, LoadBalancerActionTypeUseBackend, LoadBalancerActionTypeHTTPReturn,
          LoadBalancerActionTypeSetForwardedHeaders]
      rw [r] at hlow
      have l0 := hlow LoadBalancerActionTypeSetForwardedHeaders (by decide)
      have l1 := hlow LoadBalancerActionTypeUseBackend (by decide)
      rw [l0, l1] at ih2
      simp only [List.filter_cons, hx, l0, l1]
      simp only [List.nil_append] at ih2
      simp [LoadBalancerActionTypeUseBackend, LoadBalancerActionTypeHTTPRedirect,
        LoadBalancerActionTypeHTTPReturn, LoadBalancerActionTypeTCPReject,
        LoadBalancerActionTypeSetForwardedHeaders] at ih2 ⊢
      exact ih2
    · have r : kindRank x = 4 := by
        simp [kindRank, hx, LoadBalancerActionTypeUseBackend, LoadBalancerActionTypeHTTPReturn,
          LoadBalancerActionTypeHTTPRedirect, LoadBalancerActionTypeTCPReject,
          LoadBalancerActionTypeSetForwardedHeaders]
      rw [r] at hlow
      have l0 := hlow LoadBalancerActionTypeSetForwardedHeaders (by decide)
      have l1 := hlow LoadBalancerActionTypeUseBackend (by decide)
      have l2 := hlow LoadBalancerActionTypeHTTPReturn (by decide)
      have l3 := hlow LoadBalancerActionTypeHTTPRedirect (by decide)
      rw [l0, l1, l2, l3] at ih2
      simp only [List.filter_cons, hx, l0, l1, l2, l3]
      simp only [List.nil_append] at ih2
      simp [LoadBalancerActionTypeUseBackend, LoadBalancerActionTypeHTTPRedirect,
        LoadBalancerActionTypeHTTPReturn, LoadBalancerActionTypeTCPReject,
        LoadBalancerActionTypeSetForwardedHeaders] at ih2 ⊢
      exact ih2
    · simp only [List.filter_cons, hx]
      simp [LoadBalancerActionTypeUseBackend, LoadBalancerActionTypeHTTPRedirect,
        LoadBalancerActionTypeHTTPReturn, LoadBalancerActionTypeTCPReject,
        LoadBalancerActionTypeSetForwardedHeaders] at ih2 ⊢
      exact ih2

/-- C23: round trip API actions -> state -> API actions.  For every list of API
actions of supported types (each action carrying the payload of its type and no
other) in which each `http_redirect` action has exactly one of `Location`,
`Scheme` non-empty, storing the list with `setFrontendRuleActionsResourceData` and
rebuilding it with `loadBalancerActionsFromResourceData` succeeds and yields the
list reordered into the kind order `set_forwarded_headers`, `use_backend`,
`http_return`, `http_redirect`, `tcp_reject`, the relative order inside each kind
being kept; the result is a permutation of the list; the composite applied to its
own result returns that result again; and it returns a list that already is in
kind order unchanged. -/
theorem C23_actions_state_actions_roundtrip (d0 d1 : ResourceData)
    (l : List LoadBalancerAction)
    (hapi : ∀ a ∈ l, a.isSupportedAPIAction = true)
    (hone : ∀ a ∈ l, a.redirectExactlyOne = true) :
    actionsStateActions d0 l = some (kindOrder l) ∧
    (kindOrder l).Perm l ∧
    actionsStateActions d1 (kindOrder l) = some (kindOrder l) ∧
    (inKindOrder l → actionsStateActions d0 l = some l) := by
  have hmem : ∀ a, a ∈ kindOrder l → a ∈ l := by
    intro a ha
    simp only [kindOrder, List.mem_append, List.mem_filter] at ha
    rcases ha with h | h | h | h | h <;> exact h.1
  have hsupp : ∀ a ∈ l, a.supportedType = true :=
    fun a ha => (supported_of_isSupportedAPIAction a (hapi a ha)).1
  refine ⟨actionsStateActions_eq d0 l hapi hone, kindOrder_perm l hsupp, ?_, ?_⟩
  · rw [actionsStateActions_eq d1 (kindOrder l) (fun a ha => hapi a (hmem a ha))
      (fun a ha => hone a (hmem a ha)), kindOrder_kindOrder]
  · intro ho
    rw [actionsStateActions_eq d0 l hapi hone, kindOrder_of_inKindOrder l hsupp ho]

/-- C23, witness: a TCP reject, two backends around a scheme redirect, and
forwarded headers. -/
theorem C23_actions_state_actions_roundtrip_witness :
    actionsStateActions { actions := [] }
        [NewLoadBalancerTCPRejectAction, NewLoadBalancerUseBackendAction "b",
          NewLoadBalancerHTTPRedirectSchemeAction "https",
          NewLoadBalancerSetForwardedHeadersAction, NewLoadBalancerUseBackendAction "c"]
      = some [NewLoadBalancerSetForwardedHeadersAction, NewLoadBalancerUseBackendAction "b",
          NewLoadBalancerUseBackendAction "c", NewLoadBalancerHTTPRedirectSchemeAction "https",
          NewLoadBalancerTCPRejectAction] :=
  (C23_actions_state_actions_roundtrip { actions := [] } { actions := [] }
    [NewLoadBalancerTCPRejectAction, NewLoadBalancerUseBackendAction "b",
      NewLoadBalancerHTTPRedirectSchemeAction "https",
      NewLoadBalancerSetForwardedHeadersAction, NewLoadBalancerUseBackendAction "c"]
    (by decide) (by decide)).1

theorem setFrontendRuleActionsResourceData_eq_state (d : ResourceData)
    (rule : LoadBalancerFrontendRule) :
    setFrontendRuleActionsResourceData d rule =
      match (setFrontendRuleActionsResourceData_state d rule).2 with
      | Result.ok _ => Result.ok (setFrontendRuleActionsResourceData_state d rule).1
      | Result.error e => Result.error e
      | Result.nilDereference => Result.nilDereference := by
  unfold setFrontendRuleActionsResourceData setFrontendRuleActionsResourceData_state
  by_cases h : rule.Actions.length = 0
  · simp [h]
  · simp only [h, if_false]
    cases setFrontendRuleActionsLoop ActionsBlock.empty rule.Actions <;> rfl

/-- C24, counterexample: the rule has an action of the unsupported type
`http_rewrite`, preceded by a `use_backend` action without payload;
`setFrontendRuleActionsResourceData` does not return the "received unsupported
action type" error: it ends in a nil-pointer dereference. -/
theorem C24_counterexample :
    LoadBalancerAction.empty "http_rewrite" ∈ C24_input.Actions ∧
    (LoadBalancerAction.empty "http_rewrite").supportedType = false ∧
    setFrontendRuleActionsResourceData_state C8_input C24_input
      = (C8_input, Result.nilDereference) ∧
    setFrontendRuleActionsResourceData C8_input C24_input = Result.nilDereference := by
  refine ⟨by decide, by decide, rfl, rfl⟩

/-- C24, as amended: `setFrontendRuleActionsResourceData` makes no partial write:
whenever the call does not end with `nil`, the resource data, the `actions`
attribute included, is unchanged.  If the rule has no actions it sets `actions`
to nil.  If an action of the rule has a type other than the five supported ones
and the actions before the first such action carry the payload of their type, it
returns the "received unsupported action type" error for that action and leaves
`actions` unchanged.  If every action is of a supported type and carries the
payload of its type, it writes exactly one `actions` block, in which each kind's
list holds that kind's actions in their original relative order. -/
theorem C24_set_atomic_on_error (d : ResourceData) (rule : LoadBalancerFrontendRule) :
    ((setFrontendRuleActionsResourceData_state d rule).2 ≠ Result.ok () →
      (setFrontendRuleActionsResourceData_state d rule).1 = d) ∧
    (rule.Actions = [] →
      setFrontendRuleActionsResourceData_state d rule
        = ({ d with actions := [] }, Result.ok ())) ∧
    (∀ (pre suf : List LoadBalancerAction) (a : LoadBalancerAction),
      rule.Actions = pre ++ a :: suf →
      (∀ x ∈ pre, x.supportedType = true ∧ x.payloadPresent = true) →
      a.supportedType = false →
      setFrontendRuleActionsResourceData_state d rule
        = (d, Result.error (Error.unsupportedActionType a))) ∧
    (rule.Actions ≠ [] →
      (∀ x ∈ rule.Actions, x.supportedType = true ∧ x.payloadPresent = true) →
      setFrontendRuleActionsResourceData_state d rule
        = ({ d with actions := [actionsBlockByKind rule.Actions] }, Result.ok ())) := by
  refine ⟨?_, ?_, ?_, ?_⟩
  · intro h
    unfold setFrontendRuleActionsResourceData_state at h ⊢
    by_cases hlen : rule.Actions.length = 0
    · simp [hlen] at h
    · simp only [hlen, if_false] at h ⊢
      cases hloop : setFrontendRuleActionsLoop ActionsBlock.empty rule.Actions with
      | ok actions => simp [hloop] at h
      | error e => rfl
      | nilDereference => rfl
  · intro h
    simp [setFrontendRuleActionsResourceData_state, h]
  · intro pre suf a hl hpre ha
    have hlen : (pre ++ a :: suf).length ≠ 0 := by simp
    simp only [setFrontendRuleActionsResourceData_state, hl, hlen, if_false,
      setFrontendRuleActionsLoop_unsupported pre suf a ActionsBlock.empty hpre ha]
  · intro hne hall
    have hlen : rule.Actions.length ≠ 0 := fun h => hne (List.length_eq_zero.1 h)
    simp only [setFrontendRuleActionsResourceData_state, hlen, if_false,
      setFrontendRuleActionsLoop_byKind rule.Actions ActionsBlock.empty hall]
    simp [ActionsBlock.empty, actionsBlockByKind]

/-- C24, witness: a backend action followed by an action of the unknown type
`http_rewrite`; the stored configuration of the acceptance test is left as it
was. -/
theorem C24_set_atomic_on_error_witness :
    setFrontendRuleActionsResourceData_state C8_input
        { Actions := [NewLoadBalancerUseBackendAction "b",
            LoadBalancerAction.empty "http_rewrite", NewLoadBalancerTCPRejectAction] }
      = (C8_input,
          Result.error (Error.unsupportedActionType (LoadBalancerAction.empty "http_rewrite"))) :=
  (C24_set_atomic_on_error C8_input
    { Actions := [NewLoadBalancerUseBackendAction "b",
        LoadBalancerAction.empty "http_rewrite", NewLoadBalancerTCPRejectAction] }).2.2.1
    [NewLoadBalancerUseBackendAction "b"] [NewLoadBalancerTCPRejectAction]
    (LoadBalancerAction.empty "http_rewrite") rfl (by decide) (by decide)

/-- C25: no user mutation while the parent is powered off.  If the
`GetManagedDatabase` call with which a handler reads the power state fails or
reports `Powered = false`, then `resourceUserCreate`, `resourceUserUpdate` and
`resourceUserDelete` leave the resource data unchanged (no ID is set), and either
make no call at all (an earlier guard of create or delete returned) or make that
`GetManagedDatabase` call only and return an error: no
`CreateManagedDatabaseUser`, `ModifyManagedDatabaseUser`,
`ModifyManagedDatabaseUserAccessControl` or `DeleteManagedDatabaseUser` call is
made and the readiness wait is not started. -/
theorem C25_no_mutation_while_powered_off (m : Meta) (d : UserResource) (calls : List Call)
    (hbad : (∃ err, m.client.GetManagedDatabase calls { UUID := d.service } = Except.error err) ∨
      (∃ sd, m.client.GetManagedDatabase calls { UUID := d.service } = Except.ok sd ∧
        sd.Powered = false)) :
    ((resourceUserCreate m d calls).d = d ∧
      ((resourceUserCreate m d calls).calls = calls ∨
        ((resourceUserCreate m d calls).calls
            = calls ++ [Call.GetManagedDatabase { UUID := d.service }] ∧
          ∃ err, (resourceUserCreate m d calls).diags = FromErr err))) ∧
    ((resourceUserUpdate m d calls).d = d ∧
      (resourceUserUpdate m d calls).calls
        = calls ++ [Call.GetManagedDatabase { UUID := d.service }] ∧
      ∃ err, (resourceUserUpdate m d calls).diags = FromErr err) ∧
    ((resourceUserDelete m d calls).d = d ∧
      ((resourceUserDelete m d calls).calls = calls ∨
        ((resourceUserDelete m d calls).calls
            = calls ++ [Call.GetManagedDatabase { UUID := d.service }] ∧
          ∃ err, (resourceUserDelete m d calls).diags = FromErr err))) := by
  refine ⟨?_, ?_, ?_⟩
  · unfold resourceUserCreate
    split
    · exact ⟨rfl, Or.inl rfl⟩
    · rcases hbad with ⟨err, he⟩ | ⟨sd, hsd, hoff⟩
      · simp [he, FromErr]
      · simp [hsd, hoff, FromErr]
  · unfold resourceUserUpdate
    rcases hbad with ⟨err, he⟩ | ⟨sd, hsd, hoff⟩
    · simp [he, FromErr]
    · simp [hsd, hoff, FromErr]
  · unfold resourceUserDelete
    split
    · split
      · exact ⟨rfl, Or.inl rfl⟩
      · exact ⟨rfl, Or.inl rfl⟩
    · rcases hbad with ⟨err, he⟩ | ⟨sd, hsd, hoff⟩
      · simp [he, FromErr]
      · simp [hsd, hoff, FromErr]

/-- C25, witness: the powered-off service `db1`. -/
theorem C25_no_mutation_while_powered_off_witness :
    (resourceUserUpdate (exampleMeta { Name := "db1", Powered := false, Type_ := "pg" })
        (exampleUser "normal" [] []) []).d = exampleUser "normal" [] [] ∧
    (resourceUserUpdate (exampleMeta { Name := "db1", Powered := false, Type_ := "pg" })
        (exampleUser "normal" [] []) []).calls
      = [] ++ [Call.GetManagedDatabase { UUID := (exampleUser "normal" [] []).service }] ∧
    ∃ err, (resourceUserUpdate (exampleMeta { Name := "db1", Powered := false, Type_ := "pg" })
        (exampleUser "normal" [] []) []).diags = FromErr err :=
  (C25_no_mutation_while_powered_off
    (exampleMeta { Name := "db1", Powered := false, Type_ := "pg" })
    (exampleUser "normal" [] []) []
    (Or.inr ⟨{ Name := "db1", Powered := false, Type_ := "pg" }, rfl, rfl⟩)).2.1
